import Mathlib

/-!
# Blockout attract-mode controller (`blockout_demo.c`)

A shallow embedding of the autonomous demo controller of the Blockout game.
The static variables of the C file form the record `Demo`; the globals of the
rest of the game that the controller reads or writes form the record `Game`;
the functions of other translation units are the fields of `Env`.  Every call
that leaves the file is appended to a call log, so that "which external calls
were made, in which order, with which arguments" is part of the state.

Machine integers are `Nat`/`Int` with the C conversions written out:
`u8`, `u16` and `i8` are the conversions to `uint8_t`, `uint16_t`, `int8_t`.
-/

namespace Blockout

/-! ## Machine integers -/

/-- Conversion of a C integer to `uint8_t`. -/
def u8 (i : Int) : Nat := (i % 256).toNat

/-- Conversion of a C integer to `uint16_t`. -/
def u16 (i : Int) : Nat := (i % 65536).toNat

/-- Conversion of a C integer to `int8_t` (two's complement). -/
def i8 (i : Int) : Int := (i + 128) % 256 - 128

/-! ## Data model -/

/-- The game state enumeration of `blockout_state.h`.  The controller names four
of its values; every other value of the enumeration is `STATE_OTHER n`. -/
inductive GameState where
  | STATE_START_SCREEN
  | STATE_PLAYING
  | STATE_ANIMATING
  | STATE_FAST_DROP
  | STATE_OTHER (n : Nat)
  deriving DecidableEq, Repr

/-- One call from `blockout_demo.c` into another translation unit. -/
inductive ExtCall where
  | apply_selected_pit_size
  | reset_game_state
  | update_static_buffer
  | spawn_new_shape
  | change_state (s : GameState)
  | count_occupied_levels
  | is_position_valid (x y z : Int)
  | try_wall_kick (ax ay az : Nat)
  | random (lo hi : Int)
  deriving DecidableEq, Repr

/-- The file-static variables of `blockout_demo.c` (lines 15-28). -/
structure Demo where
  demo_mode : Bool
  start_screen_idle_frames : Nat
  demo_timer : Nat
  demo_lines_base : Nat
  demo_last_cubes_played : Nat
  demo_clear_target : Nat
  demo_move_dir_x : Int
  demo_move_dir_y : Int
  demo_steps_x : Nat
  demo_steps_y : Nat
  demo_movement_done : Bool
  demo_center_drop_active : Bool
  deriving DecidableEq, Repr

/-- The globals of the rest of the game that `blockout_demo.c` reads or writes.
`PIT_WIDTH`, `PIT_DEPTH`, `PIT_HEIGHT` are declared in a header that is not part
of the sources at hand; they are kept here so that both a constant and a
selectable pit size are covered.  `hidden` stands for all remaining external
state (generator state of `random`, shape geometry, score, ...). -/
structure Game where
  state_current : GameState
  full_redraw_pending : Bool
  need_static_redraw : Bool
  shape_pos_x : Int
  shape_pos_y : Int
  shape_pos_z : Int
  targetX : Nat
  targetY : Nat
  targetZ : Nat
  lines_cleared : Nat
  cubes_played : Nat
  next_shape_idx : Nat
  PIT_WIDTH : Nat
  PIT_DEPTH : Nat
  PIT_HEIGHT : Nat
  pit : Nat → Nat → Nat → Nat
  pit_colors : Nat → Nat → Nat → Nat
  layer_colors : Nat → Nat
  hidden : Nat

/-- The functions and constants of other translation units.  They are
parameters of the embedding: nothing is assumed about what they compute.
`random` returns its value and the new hidden state; the two query functions
`is_position_valid` and `try_wall_kick` read the game and write nothing
(the out-parameters of `try_wall_kick` are the components of its result). -/
structure Env where
  ANGLE_STEP_90 : Nat
  apply_selected_pit_size : Game → Game
  reset_game_state : Game → Game
  update_static_buffer : Game → Game
  spawn_new_shape : Game → Game
  count_occupied_levels : Game → Nat
  is_position_valid : Game → Int → Int → Int → Bool
  try_wall_kick : Game → Nat → Nat → Nat → Option (Int × Int × Int)
  random : Game → Int → Int → Int × Nat

/-- The whole program state: the controller's statics, the game's globals and
the log of calls that left the file (oldest first). -/
structure State where
  demo : Demo
  game : Game
  log : List ExtCall

/-- `DEMO_START_DELAY_FRAMES` (line 13). -/
def DEMO_START_DELAY_FRAMES : Nat := 600

/-! ## Calls into other translation units -/

/-- Append one call to the log. -/
def logCall (c : ExtCall) (s : State) : State :=
  { s with log := s.log ++ [c] }

/-- The call `apply_selected_pit_size()`. -/
def call_apply_selected_pit_size (env : Env) (s : State) : State :=
  logCall ExtCall.apply_selected_pit_size { s with game := env.apply_selected_pit_size s.game }

/-- The call `reset_game_state()`. -/
def call_reset_game_state (env : Env) (s : State) : State :=
  logCall ExtCall.reset_game_state { s with game := env.reset_game_state s.game }

/-- The call `update_static_buffer()`. -/
def call_update_static_buffer (env : Env) (s : State) : State :=
  logCall ExtCall.update_static_buffer { s with game := env.update_static_buffer s.game }

/-- The call `spawn_new_shape()`. -/
def call_spawn_new_shape (env : Env) (s : State) : State :=
  logCall ExtCall.spawn_new_shape { s with game := env.spawn_new_shape s.game }

/-- Modelled from the spec: `change_state` of `blockout_state.c` is not among the
sources; the spec's interface says `changeState(newState)` mutates the current
state of the game state machine, which is all this definition does. -/
def change_state (st : GameState) (s : State) : State :=
  logCall (ExtCall.change_state st) { s with game := { s.game with state_current := st } }

/-- The call `count_occupied_levels()`; its result is a `uint8_t` (spec, section 6)
and is stored in one. -/
def call_count_occupied_levels (env : Env) (s : State) : Nat × State :=
  (env.count_occupied_levels s.game, logCall ExtCall.count_occupied_levels s)

/-- The call `is_position_valid(x, y, z)`. -/
def call_is_position_valid (env : Env) (x y z : Int) (s : State) : Bool × State :=
  (env.is_position_valid s.game x y z, logCall (ExtCall.is_position_valid x y z) s)

/-- The call `try_wall_kick(ax, ay, az, &kX, &kY, &kZ)`: `some (kX, kY, kZ)` when
it returns true, `none` when it returns false. -/
def call_try_wall_kick (env : Env) (ax ay az : Nat) (s : State) :
    Option (Int × Int × Int) × State :=
  (env.try_wall_kick s.game ax ay az, logCall (ExtCall.try_wall_kick ax ay az) s)

/-- The call `random(lo, hi)`. -/
def call_random (env : Env) (lo hi : Int) (s : State) : Int × State :=
  ((env.random s.game lo hi).1,
   logCall (ExtCall.random lo hi)
     { s with game := { s.game with hidden := (env.random s.game lo hi).2 } })

/-! ## The controller -/

/-- `demo_should_reset` (lines 35-38). -/
def demo_should_reset (env : Env) (s : State) : Bool × State :=
  let r := call_count_occupied_levels env s
  (decide (u8 ((r.2.game.PIT_HEIGHT : Int) - 2) ≤ r.1), r.2)

/-- Assignment `a[z][y][x] = v` on a three-dimensional array. -/
def store3 (a : Nat → Nat → Nat → Nat) (z y x v : Nat) : Nat → Nat → Nat → Nat :=
  fun z1 y1 x1 => if z1 = z ∧ y1 = y ∧ x1 = x then v else a z1 y1 x1

/-- The body of the inner loop of `demo_fill_bottom_level` (lines 50-55). -/
def fill_cell (bottom_z center_x center_y y x : Nat) (g : Game) : Game :=
  if x = center_x ∧ y = center_y then
    { g with pit := store3 g.pit bottom_z y x 0 }
  else
    { g with
      pit := store3 g.pit bottom_z y x 1
      pit_colors := store3 g.pit_colors bottom_z y x (g.layer_colors bottom_z) }

/-- The inner loop of `demo_fill_bottom_level` (line 48) for one `y`. -/
def fill_row (bottom_z center_x center_y width y : Nat) (g : Game) : Game :=
  (List.range width).foldl (fun acc x => fill_cell bottom_z center_x center_y y x acc) g

/-- `demo_fill_bottom_level` (lines 42-58).  The `uint8_t` loop counters run
over `0 .. PIT_DEPTH-1` and `0 .. PIT_WIDTH-1`. -/
def demo_fill_bottom_level (g : Game) : Game :=
  let bottom_z := u8 ((g.PIT_HEIGHT : Int) - 1)
  let center_x := u8 ((g.PIT_WIDTH : Int) / 2)
  let center_y := u8 ((g.PIT_DEPTH : Int) / 2)
  let width := g.PIT_WIDTH
  (List.range g.PIT_DEPTH).foldl
    (fun acc y => fill_row bottom_z center_x center_y width y acc) g

/-- `demo_plan_random_movement` (lines 62-72). -/
def demo_plan_random_movement (env : Env) (s : State) : State :=
  let r1 := call_random env 0 2 s
  let s1 := { r1.2 with demo := { r1.2.demo with
    demo_move_dir_x := i8 (if r1.1 ≠ 0 then 1 else -1) } }
  let r2 := call_random env 0 ((s1.game.PIT_WIDTH : Int) / 2 + 1) s1
  let s2 := { r2.2 with demo := { r2.2.demo with demo_steps_x := u8 r2.1 } }
  let r3 := call_random env 0 2 s2
  let s3 := { r3.2 with demo := { r3.2.demo with
    demo_move_dir_y := i8 (if r3.1 ≠ 0 then 1 else -1) } }
  let r4 := call_random env 0 ((s3.game.PIT_DEPTH : Int) / 2 + 1) s3
  let s4 := { r4.2 with demo := { r4.2.demo with demo_steps_y := u8 r4.1 } }
  { s4 with demo := { s4.demo with demo_movement_done := false } }

/-- The X translation attempt of `demo_execute_movement_step` (lines 80-87):
returns the local `moved` and the new state. -/
def move_x (env : Env) (s : State) : Bool × State :=
  if 0 < s.demo.demo_steps_x then
    let new_x := i8 (s.game.shape_pos_x + s.demo.demo_move_dir_x)
    let v := call_is_position_valid env new_x s.game.shape_pos_y s.game.shape_pos_z s
    let s1 := if v.1 then { v.2 with game := { v.2.game with shape_pos_x := new_x } } else v.2
    (v.1, { s1 with demo := { s1.demo with demo_steps_x := u8 ((s1.demo.demo_steps_x : Int) - 1) } })
  else (false, s)

/-- The Y translation attempt of `demo_execute_movement_step` (lines 90-97),
entered with the value of the local `moved`; returns the new `moved` and state. -/
def move_y (env : Env) (moved : Bool) (s : State) : Bool × State :=
  if !moved && decide (0 < s.demo.demo_steps_y) then
    let new_y := i8 (s.game.shape_pos_y + s.demo.demo_move_dir_y)
    let v := call_is_position_valid env s.game.shape_pos_x new_y s.game.shape_pos_z s
    let s1 := if v.1 then { v.2 with game := { v.2.game with shape_pos_y := new_y } } else v.2
    (moved || v.1,
     { s1 with demo := { s1.demo with demo_steps_y := u8 ((s1.demo.demo_steps_y : Int) - 1) } })
  else (moved, s)

/-- The final check of `demo_execute_movement_step` (lines 142-144). -/
def check_movement_complete (s : State) : State :=
  if s.demo.demo_steps_x = 0 ∧ s.demo.demo_steps_y = 0 then
    { s with demo := { s.demo with demo_movement_done := true } }
  else s

/-- The rotation block of `demo_execute_movement_step` (lines 100-139), entered
after the coin flip succeeded: the flag is true when a branch executes `return`
(the wall kick succeeded) and false when control falls out of the block. -/
def try_rotation (env : Env) (s : State) : Bool × State :=
  let ra := call_random env 0 3 s
  let axis := u8 ra.1
  let step := u8 env.ANGLE_STEP_90
  let s1 := ra.2
  if axis = 0 then
    let nextX := u8 ((s1.game.targetX : Int) + step)
    let k := call_try_wall_kick env nextX s1.game.targetY s1.game.targetZ s1
    match k.1 with
    | some (kX, kY, kZ) =>
      (true, change_state GameState.STATE_ANIMATING
        { k.2 with game := { k.2.game with
            shape_pos_x := kX, shape_pos_y := kY, shape_pos_z := kZ, targetX := nextX } })
    | none => (false, k.2)
  else if axis = 1 then
    let nextY := u8 ((s1.game.targetY : Int) + step)
    let k := call_try_wall_kick env s1.game.targetX nextY s1.game.targetZ s1
    match k.1 with
    | some (kX, kY, kZ) =>
      (true, change_state GameState.STATE_ANIMATING
        { k.2 with game := { k.2.game with
            shape_pos_x := kX, shape_pos_y := kY, shape_pos_z := kZ, targetY := nextY } })
    | none => (false, k.2)
  else
    let nextZ := u8 ((s1.game.targetZ : Int) + step)
    let k := call_try_wall_kick env s1.game.targetX s1.game.targetY nextZ s1
    match k.1 with
    | some (kX, kY, kZ) =>
      (true, change_state GameState.STATE_ANIMATING
        { k.2 with game := { k.2.game with
            shape_pos_x := kX, shape_pos_y := kY, shape_pos_z := kZ, targetZ := nextZ } })
    | none => (false, k.2)

/-- `demo_execute_movement_step` (lines 74-145). -/
def demo_execute_movement_step (env : Env) (s : State) : State :=
  if s.game.state_current = GameState.STATE_ANIMATING then s
  else
    let mx := move_x env s
    let my := move_y env mx.1 mx.2
    let coin := call_random env 0 2 my.2
    if coin.1 ≠ 0 then
      let rot := try_rotation env coin.2
      if rot.1 then rot.2 else check_movement_complete rot.2
    else check_movement_complete coin.2

/-- `demo_reset_cycle` (lines 147-161). -/
def demo_reset_cycle (env : Env) (s : State) : State :=
  let s1 := call_reset_game_state env s
  let s2 := { s1 with game := demo_fill_bottom_level s1.game }
  let s3 := call_update_static_buffer env s2
  let r := call_random env 0 2 s3
  let s4 := { r.2 with demo := { r.2.demo with
    demo_clear_target := u8 (1 + (u8 r.1 : Int))
    demo_lines_base := r.2.game.lines_cleared
    demo_timer := 0
    demo_center_drop_active := true } }
  let s5 := { s4 with game := { s4.game with next_shape_idx := 0 } }
  let s6 := call_spawn_new_shape env s5
  { s6 with demo := { s6.demo with
    demo_last_cubes_played := s6.game.cubes_played
    demo_movement_done := false } }

/-- `demo_on_new_shape` (lines 163-176). -/
def demo_on_new_shape (env : Env) (s : State) : State :=
  if s.demo.demo_center_drop_active then
    demo_plan_random_movement env
      { s with demo := { s.demo with
        demo_center_drop_active := false
        demo_lines_base := s.game.lines_cleared } }
  else if u16 ((s.demo.demo_lines_base : Int) + s.demo.demo_clear_target) ≤ s.game.lines_cleared then
    demo_reset_cycle env s
  else
    demo_plan_random_movement env s

/-- `demo_is_active` (lines 178-180). -/
def demo_is_active (s : State) : Bool := s.demo.demo_mode

/-- The statement `change_state(STATE_FAST_DROP); demo_timer = 0;`
(lines 201-202 and 216-217). -/
def force_fast_drop (s : State) : State :=
  let s1 := change_state GameState.STATE_FAST_DROP s
  { s1 with demo := { s1.demo with demo_timer := 0 } }

/-- The new-piece detection of `demo_tick` (lines 190-193). -/
def demo_tick_dispatch (env : Env) (s : State) : State :=
  if s.game.cubes_played ≠ s.demo.demo_last_cubes_played then
    demo_on_new_shape env
      { s with demo := { s.demo with demo_last_cubes_played := s.game.cubes_played } }
  else s

/-- The statement `demo_timer++` of `demo_tick` (line 197). -/
def demo_tick_timer (s : State) : State :=
  { s with demo := { s.demo with demo_timer := u16 ((s.demo.demo_timer : Int) + 1) } }

/-- The periodic movement step of `demo_tick` (lines 208-212).  The operator `%`
of C truncates, hence `Int.tmod`. -/
def demo_tick_move (env : Env) (s : State) : State :=
  let r := call_random env 8 50 s
  if Int.tmod (r.2.demo.demo_timer : Int) r.1 = 0 then
    if !r.2.demo.demo_movement_done then demo_execute_movement_step env r.2 else r.2
  else r.2

/-- The part of `demo_tick` after the state gate (lines 197-218). -/
def demo_tick_playing (env : Env) (s : State) : State :=
  let s1 := demo_tick_timer s
  if s1.demo.demo_center_drop_active then
    if 20 < s1.demo.demo_timer then force_fast_drop s1 else s1
  else
    let s2 := demo_tick_move env s1
    if s2.demo.demo_movement_done && decide (60 < s2.demo.demo_timer) then force_fast_drop s2
    else s2

/-- `demo_tick` (lines 182-219). -/
def demo_tick (env : Env) (s : State) : State :=
  if !s.demo.demo_mode then s
  else
    let r := demo_should_reset env s
    if r.1 then demo_reset_cycle env r.2
    else
      let s1 := demo_tick_dispatch env r.2
      if s1.game.state_current ≠ GameState.STATE_PLAYING then s1
      else demo_tick_playing env s1

/-- `demo_start` (lines 221-228). -/
def demo_start (env : Env) (s : State) : State :=
  if s.demo.demo_mode then s
  else
    let s1 := call_apply_selected_pit_size env s
    let s2 := { s1 with demo := { s1.demo with demo_mode := true } }
    let s3 := demo_reset_cycle env s2
    let s4 := change_state GameState.STATE_PLAYING s3
    { s4 with demo := { s4.demo with start_screen_idle_frames := 0 } }

/-- `demo_stop` (lines 230-237). -/
def demo_stop (s : State) : State :=
  if !s.demo.demo_mode then s
  else
    let s1 := { s with demo := { s.demo with demo_mode := false } }
    let s2 := change_state GameState.STATE_START_SCREEN s1
    let s3 := { s2 with game := { s2.game with
      full_redraw_pending := true, need_static_redraw := true } }
    { s3 with demo := { s3.demo with start_screen_idle_frames := 0 } }

/-- `demo_idle_update` (lines 239-258): the returned flag and the new state. -/
def demo_idle_update (env : Env) (is_start_screen key_pressed : Bool) (s : State) :
    Bool × State :=
  if !is_start_screen || s.demo.demo_mode then
    (false, { s with demo := { s.demo with start_screen_idle_frames := 0 } })
  else if key_pressed then
    (false, { s with demo := { s.demo with start_screen_idle_frames := 0 } })
  else
    let s1 := { s with demo := { s.demo with
      start_screen_idle_frames := u16 ((s.demo.start_screen_idle_frames : Int) + 1) } }
    if DEMO_START_DELAY_FRAMES ≤ s1.demo.start_screen_idle_frames then
      let s2 := demo_start env s1
      (true, { s2 with demo := { s2.demo with start_screen_idle_frames := 0 } })
    else (false, s1)

/-- `demo_notify_start_screen_input` (lines 260-262). -/
def demo_notify_start_screen_input (s : State) : State :=
  { s with demo := { s.demo with start_screen_idle_frames := 0 } }

/-! ## Runs of the idle monitor -/

/-- What the rest of the program does between two calls of the controller: it
may change the game's globals, but it cannot reach the file-static variables. -/
def between (other : Game → Game) (s : State) : State :=
  { s with game := other s.game }

/-- The result of the `k`-th of a sequence of calls
`demo_idle_update(true, false)` started in `s0` (index `0` is the start itself):
the returned flag and the state after the call.  Before call `k + 1` the rest of
the program runs `other k`; no other function of the controller is called. -/
def idle_calls (env : Env) (other : Nat → Game → Game) (s0 : State) : Nat → Bool × State
  | 0 => (false, s0)
  | k + 1 => demo_idle_update env true false (between (other k) (idle_calls env other s0 k).2)

/-! ## Runs of the movement executor -/

/-- The value of the local `moved` of `demo_execute_movement_step` when control
reaches the rotation block (line 100): whether a translation was committed. -/
def translation_committed (env : Env) (s : State) : Bool :=
  (move_y env (move_x env s).1 (move_x env s).2).1

/-- The state of a call of `demo_execute_movement_step` after its two translation
blocks (line 98). -/
def after_translation (env : Env) (s : State) : State :=
  (move_y env (move_x env s).1 (move_x env s).2).2

/-- The state in which the rotation block of `demo_execute_movement_step` queries
the wall-kick resolver: after the translation blocks and the two draws of
`random` (lines 100-101). -/
def rotation_entry (env : Env) (s : State) : State :=
  (call_random env 0 3 (call_random env 0 2 (after_translation env s)).2).2

/-- Whether a call of `demo_execute_movement_step` in `s` leaves through one of
the `return` statements of the rotation block (lines 114, 125, 136): the coin
flip succeeded and the wall kick on the chosen axis succeeded. -/
def rotation_succeeded (env : Env) (s : State) : Bool :=
  if s.game.state_current = GameState.STATE_ANIMATING then false
  else
    let mx := move_x env s
    let my := move_y env mx.1 mx.2
    let coin := call_random env 0 2 my.2
    decide (coin.1 ≠ 0) && (try_rotation env coin.2).1

/-- The state after `k` invocations of `demo_execute_movement_step` started in
`s0`.  Before invocation `k + 1` the rest of the program runs `other k` on the
game's globals (for instance, an animation ends and the state returns to
`PLAYING`); the movement plan is not re-drawn in between. -/
def exec_calls (env : Env) (other : Nat → Game → Game) (s0 : State) : Nat → State
  | 0 => s0
  | k + 1 => demo_execute_movement_step env (between (other k) (exec_calls env other s0 k))

/-! ## Runs of the tick and round resets in the call log -/

/-- The number of round resets performed so far: `reset_game_state` is called by
`demo_reset_cycle` and nowhere else. -/
def resets (s : State) : Nat := s.log.count ExtCall.reset_game_state

/-- What an operation may do to the center-drop flag: it performs zero or more
round resets, and leaves the flag true only if it was true before or a round
reset was performed. -/
def FlagStep (s t : State) : Prop :=
  resets s ≤ resets t ∧
  (t.demo.demo_center_drop_active = true →
    s.demo.demo_center_drop_active = true ∨ resets s < resets t)

/-- The state after `k` calls of `demo_tick` started in `s0`; before call `k + 1`
the rest of the program runs `other k` on the game's globals. -/
def tick_calls (env : Env) (other : Nat → Game → Game) (s0 : State) : Nat → State
  | 0 => s0
  | k + 1 => demo_tick env (between (other k) (tick_calls env other s0 k))

/-- Whether call `k + 1` of the run detects a new piece (line 190). -/
def new_piece_at (env : Env) (other : Nat → Game → Game) (s0 : State) (k : Nat) : Bool :=
  decide ((between (other k) (tick_calls env other s0 k)).game.cubes_played ≠
    (tick_calls env other s0 k).demo.demo_last_cubes_played)

/-! ## Sample environments and states -/

/-- A small empty pit in state `PLAYING`, piece at the origin. -/
def sampleGame : Game where
  state_current := GameState.STATE_PLAYING
  full_redraw_pending := false
  need_static_redraw := false
  shape_pos_x := 0
  shape_pos_y := 0
  shape_pos_z := 0
  targetX := 0
  targetY := 0
  targetZ := 0
  lines_cleared := 0
  cubes_played := 0
  next_shape_idx := 0
  PIT_WIDTH := 5
  PIT_DEPTH := 5
  PIT_HEIGHT := 10
  pit := fun _ _ _ => 0
  pit_colors := fun _ _ _ => 0
  layer_colors := fun z => z + 1
  hidden := 0

/-- The zero-initialised statics of the C file. -/
def initDemo : Demo where
  demo_mode := false
  start_screen_idle_frames := 0
  demo_timer := 0
  demo_lines_base := 0
  demo_last_cubes_played := 0
  demo_clear_target := 0
  demo_move_dir_x := 0
  demo_move_dir_y := 0
  demo_steps_x := 0
  demo_steps_y := 0
  demo_movement_done := false
  demo_center_drop_active := false

/-- The program state at start-up over `sampleGame`. -/
def initState : State := { demo := initDemo, game := sampleGame, log := [] }

/-- An environment whose oracles are constant: every position is valid iff
`valid`, the wall kick succeeds (kicking the piece one cell back) iff `kick`,
`random` always returns `rnd`, and `occupied` levels are counted. -/
def constEnv (valid kick : Bool) (rnd : Int) (occupied : Nat) : Env where
  ANGLE_STEP_90 := 64
  apply_selected_pit_size := fun g => g
  reset_game_state := fun g => { g with lines_cleared := 0, cubes_played := 0 }
  update_static_buffer := fun g => g
  spawn_new_shape := fun g => { g with shape_pos_x := 2, shape_pos_y := 2, shape_pos_z := 0 }
  count_occupied_levels := fun _ => occupied
  is_position_valid := fun _ _ _ _ => valid
  try_wall_kick := fun g _ _ _ =>
    if kick then some (g.shape_pos_x, g.shape_pos_y + 1, g.shape_pos_z) else none
  random := fun g _ _ => (rnd, g.hidden + 1)

/-- An active session in state `PLAYING` over `sampleGame` that holds the plan
"`a` steps right, `b` steps back" with the given `done` flag. -/
def planState (a b : Nat) (done : Bool) : State :=
  { initState with demo := { initDemo with
      demo_mode := true, demo_move_dir_x := 1, demo_move_dir_y := 1,
      demo_steps_x := a, demo_steps_y := b, demo_movement_done := done } }

/-- An active session outside the center drop with the given lines-cleared base,
clear target and cumulative lines-cleared counter, holding the plan (2, 1). -/
def quotaState (base target lines : Nat) : State :=
  { initState with
    demo := { initDemo with
      demo_mode := true, demo_lines_base := base, demo_clear_target := target,
      demo_move_dir_x := 1, demo_move_dir_y := -1, demo_steps_x := 2, demo_steps_y := 1 }
    game := { sampleGame with lines_cleared := lines } }

/-- An active session in state `PLAYING` outside the center drop whose plan is
complete and whose per-piece timer is `timer`. -/
def doneState (timer : Nat) : State :=
  { initState with demo := { initDemo with
      demo_mode := true, demo_clear_target := 1, demo_timer := timer,
      demo_movement_done := true } }

/-- What the rest of the program does in the sample round: before the third tick
the first piece has landed and the next one is in play. -/
def sampleOther (k : Nat) (g : Game) : Game :=
  if k = 2 then
    { g with cubes_played := g.cubes_played + 1, state_current := GameState.STATE_PLAYING }
  else g

/-- The state of a tick after its new-piece dispatch (line 194). -/
def demo_tick_dispatched (env : Env) (s : State) : State :=
  demo_tick_dispatch env (demo_should_reset env s).2

/-- A session handling the center-drop piece with the given per-piece timer. -/
def centerState (timer : Nat) : State :=
  { initState with demo := { initDemo with
      demo_mode := true, demo_clear_target := 1, demo_timer := timer,
      demo_steps_x := 2, demo_steps_y := 1, demo_center_drop_active := true } }

/-- The session of `planState` while a rotation animation owns the piece. -/
def animatingState (a b : Nat) : State :=
  { planState a b false with
    game := { sampleGame with state_current := GameState.STATE_ANIMATING } }

/-- The game on which `demo_reset_cycle` calls `spawn_new_shape` (line 158), as a
function of the game at its entry: after `reset_game_state`, the bottom-level
fill, `update_static_buffer`, the draw of the clear target and the statement
`next_shape_idx = 0`. -/
def reset_spawn_entry (env : Env) (g : Game) : Game :=
  let g3 := env.update_static_buffer (demo_fill_bottom_level (env.reset_game_state g))
  { g3 with hidden := (env.random g3 0 2).2, next_shape_idx := 0 }

/-- The state in which `demo_start` calls `demo_reset_cycle` (line 225): the pit
size applied and the session marked active. -/
def demo_start_entry (env : Env) (s : State) : State :=
  { call_apply_selected_pit_size env s with
    demo := { (call_apply_selected_pit_size env s).demo with demo_mode := true } }

/-- One step of a run of the program, as far as the controller is concerned: a
call of one of its five public operations, or the rest of the program changing
the game's globals. -/
inductive Op where
  | start
  | stop
  | tick
  | idle_update (is_start_screen key_pressed : Bool)
  | notify
  | other (f : Game → Game)

/-- The effect of one step of a run. -/
def apply_op (env : Env) (op : Op) (s : State) : State :=
  match op with
  | Op.start => demo_start env s
  | Op.stop => demo_stop s
  | Op.tick => demo_tick env s
  | Op.idle_update a b => (demo_idle_update env a b s).2
  | Op.notify => demo_notify_start_screen_input s
  | Op.other f => between f s

/-- The state after a sequence of steps. -/
def run_ops (env : Env) (ops : List Op) (s : State) : State :=
  ops.foldl (fun acc op => apply_op env op acc) s

/-- The program at start-up over the game globals `g`: the statics are
zero-initialised (lines 15-28), nothing has been called. -/
def startup (g : Game) : State := { demo := initDemo, game := g, log := [] }

/-- What a part of `demo_tick` may do to the active flag, the idle counter and
the clear target: the first two are kept, the third is kept or drawn anew by a
round reset as `1 + (uint8_t)random(0, 2)`. -/
def TargetStep (env : Env) (s t : State) : Prop :=
  t.demo.demo_mode = s.demo.demo_mode ∧
  t.demo.start_screen_idle_frames = s.demo.start_screen_idle_frames ∧
  (t.demo.demo_clear_target = s.demo.demo_clear_target ∨
    ∃ g, t.demo.demo_clear_target = u8 (1 + (u8 (env.random g 0 2).1 : Int)))
/-- A sample run: one idle frame and a key press, then the demo is started by
hand and ticks twice, the first piece landing in between. -/
def sampleRun : List Op :=
  [Op.idle_update true false, Op.notify, Op.start, Op.tick,
   Op.other (fun g => { g with cubes_played := g.cubes_played + 1 }), Op.tick]

/-- The rotation axis drawn by a call of `demo_execute_movement_step` (line 101):
0 = X, 1 = Y, anything else = Z. -/
def rotation_axis (env : Env) (s : State) : Nat :=
  u8 (call_random env 0 3 (call_random env 0 2 (after_translation env s)).2).1

/-- Whether an external call requests a state transition. -/
def is_transition : ExtCall → Bool
  | ExtCall.change_state _ => true
  | _ => false

/-- The number of state transitions requested so far. -/
def transitions (s : State) : Nat := s.log.countP is_transition

/-- The number of calls `change_state(st)` made so far. -/
def requests (st : GameState) (s : State) : Nat := s.log.count (ExtCall.change_state st)

/-- A part of an operation that requests no state transition. -/
def Quiet (s t : State) : Prop :=
  transitions t = transitions s ∧
  requests GameState.STATE_ANIMATING t = requests GameState.STATE_ANIMATING s ∧
  requests GameState.STATE_FAST_DROP t = requests GameState.STATE_FAST_DROP s

/-- A part of an operation whose only state transition is one request of
`ANIMATING`. -/
def Rotated (s t : State) : Prop :=
  transitions t = transitions s + 1 ∧
  requests GameState.STATE_ANIMATING t = requests GameState.STATE_ANIMATING s + 1 ∧
  requests GameState.STATE_FAST_DROP t = requests GameState.STATE_FAST_DROP s

/-- A part of an operation whose only state transition is one request of
`FAST_DROP`. -/
def Dropped (s t : State) : Prop :=
  transitions t = transitions s + 1 ∧
  requests GameState.STATE_ANIMATING t = requests GameState.STATE_ANIMATING s ∧
  requests GameState.STATE_FAST_DROP t = requests GameState.STATE_FAST_DROP s + 1

/-- The session of `planState` with the per-piece timer already at 100, past the
forced-drop delay. -/
def latePlanState (a b : Nat) : State :=
  { planState a b false with
    demo := { (planState a b false).demo with demo_timer := 100 } }

/-- An environment like `constEnv true false 0 0` with a wall at the back of the
pit: a position is valid exactly when its y coordinate is at most 0. -/
def backWallEnv : Env :=
  { constEnv true false 0 0 with
    is_position_valid := fun _ _ y _ => decide (y ≤ 0) }

/-! ## Frame lemmas -/

theorem demo_reset_cycle_demo_mode (env : Env) (s : State) :
    (demo_reset_cycle env s).demo.demo_mode = s.demo.demo_mode := by
  simp [demo_reset_cycle, call_spawn_new_shape, call_random, call_update_static_buffer,
    call_reset_game_state, logCall]

theorem demo_start_demo_mode (env : Env) (s : State) :
    (demo_start env s).demo.demo_mode = true := by
  unfold demo_start
  by_cases h : s.demo.demo_mode = true
  · simp [h]
  · simp [h, change_state, logCall, demo_reset_cycle_demo_mode, call_apply_selected_pit_size]

/-- While the session is inactive and fewer than 600 idle frames have been
counted, a call `demo_idle_update(true, false)` only increments the counter. -/
theorem demo_idle_update_count (env : Env) (s : State) (n : Nat)
    (hmode : s.demo.demo_mode = false) (hidle : s.demo.start_screen_idle_frames = n)
    (hn : n + 1 < 600) :
    demo_idle_update env true false s =
      (false, { s with demo := { s.demo with start_screen_idle_frames := n + 1 } }) := by
  have h16 : u16 ((n : Int) + 1) = n + 1 := by unfold u16; omega
  simp [demo_idle_update, hmode, hidle, h16, DEMO_START_DELAY_FRAMES]
  omega

/-- The call that counts the 600th idle frame starts the demo. -/
theorem demo_idle_update_fire (env : Env) (s : State)
    (hmode : s.demo.demo_mode = false) (hidle : s.demo.start_screen_idle_frames = 599) :
    (demo_idle_update env true false s).1 = true ∧
    (demo_idle_update env true false s).2.demo.demo_mode = true ∧
    (demo_idle_update env true false s).2.demo.start_screen_idle_frames = 0 := by
  have h16 : u16 600 = 600 := by decide
  simp [demo_idle_update, hmode, hidle, h16, DEMO_START_DELAY_FRAMES, demo_start_demo_mode]

theorem idle_calls_succ (env : Env) (other : Nat → Game → Game) (s0 : State) (k : Nat) :
    idle_calls env other s0 (k + 1) =
      demo_idle_update env true false (between (other k) (idle_calls env other s0 k).2) := rfl

/-- During the first 599 calls of an idle run from counter 0 the statics are
the initial ones with the counter equal to the number of calls made. -/
theorem idle_calls_prefix (env : Env) (other : Nat → Game → Game) (s0 : State)
    (hmode : s0.demo.demo_mode = false) (hidle : s0.demo.start_screen_idle_frames = 0) :
    ∀ k, k ≤ 599 →
      (idle_calls env other s0 k).1 = false ∧
      (idle_calls env other s0 k).2.demo = { s0.demo with start_screen_idle_frames := k } ∧
      (idle_calls env other s0 k).2.log = s0.log := by
  intro k
  induction k with
  | zero =>
    intro _
    refine ⟨rfl, ?_, rfl⟩
    simp only [idle_calls]
    rw [← hidle]
  | succ k ih =>
    intro hk
    obtain ⟨_, hd, hl⟩ := ih (by omega)
    have hstep := demo_idle_update_count env
      (between (other k) (idle_calls env other s0 k).2) k
      (by simp [between, hd, hmode]) (by simp [between, hd]) (by omega)
    rw [idle_calls_succ, hstep]
    exact ⟨rfl, by simp [between, hd], by simp [between, hl]⟩

/-- The full window: calls 1..599 of an idle run from counter 0 return false and
leave the session inactive, and call 600 returns true, activates the session
and leaves the counter at 0. -/
theorem idle_window (env : Env) (other : Nat → Game → Game) (s0 : State)
    (hmode : s0.demo.demo_mode = false) (hidle : s0.demo.start_screen_idle_frames = 0) :
    (∀ k, 1 ≤ k → k ≤ 599 →
      (idle_calls env other s0 k).1 = false ∧
      (idle_calls env other s0 k).2.demo.demo_mode = false) ∧
    (idle_calls env other s0 600).1 = true ∧
    (idle_calls env other s0 600).2.demo.demo_mode = true ∧
    (idle_calls env other s0 600).2.demo.start_screen_idle_frames = 0 := by
  have hp := idle_calls_prefix env other s0 hmode hidle
  refine ⟨?_, ?_⟩
  · intro k _ hk
    obtain ⟨h1, hd, _⟩ := hp k hk
    exact ⟨h1, by simp [hd, hmode]⟩
  · obtain ⟨_, hd, _⟩ := hp 599 (le_refl _)
    have := demo_idle_update_fire env (between (other 599) (idle_calls env other s0 599).2)
      (by simp [between, hd, hmode]) (by simp [between, hd])
    have h600 : idle_calls env other s0 600 =
        demo_idle_update env true false (between (other 599) (idle_calls env other s0 599).2) :=
      idle_calls_succ env other s0 599
    rw [h600]
    exact this

/-! ## Idle monitor -/

/-- C1: starting from an inactive session with idle counter 0, in every sequence
of calls `demo_idle_update(true, false)` (whatever the rest of the program does
to the game's globals in between), calls 1..599 return false and leave the demo
inactive, and call 600 returns true, leaves the demo active and the idle
counter equal to 0. -/
theorem idle_activation_on_600th_call (env : Env) (other : Nat → Game → Game) (s0 : State)
    (hmode : s0.demo.demo_mode = false) (hidle : s0.demo.start_screen_idle_frames = 0) :
    (∀ k, 1 ≤ k → k ≤ 599 →
      (idle_calls env other s0 k).1 = false ∧
      demo_is_active (idle_calls env other s0 k).2 = false) ∧
    (idle_calls env other s0 600).1 = true ∧
    demo_is_active (idle_calls env other s0 600).2 = true ∧
    (idle_calls env other s0 600).2.demo.start_screen_idle_frames = 0 := by
  simpa [demo_is_active] using idle_window env other s0 hmode hidle

/-- Witness for C1: the start-up state over the sample game, constant oracles. -/
theorem idle_activation_on_600th_call_witness :
    initState.demo.demo_mode = false ∧ initState.demo.start_screen_idle_frames = 0 ∧
    ((∀ k, 1 ≤ k → k ≤ 599 →
      (idle_calls (constEnv true true 0 0) (fun _ g => g) initState k).1 = false ∧
      demo_is_active (idle_calls (constEnv true true 0 0) (fun _ g => g) initState k).2 = false) ∧
    (idle_calls (constEnv true true 0 0) (fun _ g => g) initState 600).1 = true ∧
    demo_is_active (idle_calls (constEnv true true 0 0) (fun _ g => g) initState 600).2 = true ∧
    (idle_calls (constEnv true true 0 0) (fun _ g => g) initState 600).2.demo.start_screen_idle_frames
      = 0) :=
  ⟨rfl, rfl, idle_activation_on_600th_call (constEnv true true 0 0) (fun _ g => g) initState rfl rfl⟩

/-- C2: in every session state, `demo_notify_start_screen_input()` and every call
`demo_idle_update(_, true)` leave the idle counter equal to 0; the latter returns
false, makes no external call and leaves the active flag as it was (it has exactly
the effect of the former).  From either resulting state, when the session is
inactive, activation takes a full new window: the next 599 idle calls return
false and leave the demo inactive, and only call 600 activates it. -/
theorem input_resets_idle_counter (env : Env) (other : Nat → Game → Game) (s : State)
    (is_start_screen : Bool) :
    (demo_notify_start_screen_input s).demo.start_screen_idle_frames = 0 ∧
    (demo_idle_update env is_start_screen true s).1 = false ∧
    (demo_idle_update env is_start_screen true s).2.demo.start_screen_idle_frames = 0 ∧
    (demo_idle_update env is_start_screen true s).2 = demo_notify_start_screen_input s ∧
    demo_is_active (demo_idle_update env is_start_screen true s).2 = demo_is_active s ∧
    (demo_idle_update env is_start_screen true s).2.log = s.log ∧
    (∀ s1, (s1 = demo_notify_start_screen_input s ∨
            s1 = (demo_idle_update env is_start_screen true s).2) →
      demo_is_active s1 = false →
      (∀ k, 1 ≤ k → k ≤ 599 →
        (idle_calls env other s1 k).1 = false ∧
        demo_is_active (idle_calls env other s1 k).2 = false) ∧
      (idle_calls env other s1 600).1 = true ∧
      demo_is_active (idle_calls env other s1 600).2 = true) := by
  have hret : (demo_idle_update env is_start_screen true s).1 = false := by
    unfold demo_idle_update
    split <;> simp
  have hst : (demo_idle_update env is_start_screen true s).2 = demo_notify_start_screen_input s := by
    unfold demo_idle_update demo_notify_start_screen_input
    split <;> simp
  refine ⟨rfl, hret, ?_, hst, ?_, ?_, ?_⟩
  · rw [hst]; rfl
  · rw [hst]; rfl
  · rw [hst]; rfl
  · intro s1 hs1 hin
    rw [hst, or_self] at hs1
    have hw := idle_window env other s1 (by simpa [demo_is_active] using hin)
      (by rw [hs1]; rfl)
    exact ⟨by simpa [demo_is_active] using hw.1, hw.2.1, by simpa [demo_is_active] using hw.2.2.1⟩

/-- Witness for C2: a key press after 599 idle frames at start-up; the window
starts anew from the resulting state. -/
theorem input_resets_idle_counter_witness :
    (idle_calls (constEnv true true 0 0) (fun _ g => g)
      (demo_idle_update (constEnv true true 0 0) true true
        { initState with demo := { initDemo with start_screen_idle_frames := 599 } }).2 599).1
      = false ∧
    (idle_calls (constEnv true true 0 0) (fun _ g => g)
      (demo_idle_update (constEnv true true 0 0) true true
        { initState with demo := { initDemo with start_screen_idle_frames := 599 } }).2 600).1
      = true :=
  have h := (input_resets_idle_counter (constEnv true true 0 0) (fun _ g => g)
      { initState with demo := { initDemo with start_screen_idle_frames := 599 } } true).2.2.2.2.2.2
      _ (Or.inr rfl) rfl
  ⟨(h.1 599 (by decide) (by decide)).1, h.2.1⟩

/-! ## Movement executor: lemmas -/

theorem u8_pred_le (n : Nat) (h : 0 < n) : u8 ((n : Int) - 1) ≤ n - 1 := by
  unfold u8; omega

theorem u8_pred_eq (n : Nat) (h : 0 < n) (h8 : n < 256) : u8 ((n : Int) - 1) = n - 1 := by
  unfold u8; omega

theorem move_x_demo (env : Env) (s : State) :
    (move_x env s).2.demo = { s.demo with
      demo_steps_x := if 0 < s.demo.demo_steps_x then u8 ((s.demo.demo_steps_x : Int) - 1)
                      else s.demo.demo_steps_x } := by
  simp only [move_x, call_is_position_valid, logCall]
  split_ifs <;> rfl

theorem move_y_demo (env : Env) (moved : Bool) (s : State) :
    (move_y env moved s).2.demo = { s.demo with
      demo_steps_y := if moved = false ∧ 0 < s.demo.demo_steps_y
                      then u8 ((s.demo.demo_steps_y : Int) - 1)
                      else s.demo.demo_steps_y } := by
  simp only [move_y, call_is_position_valid, logCall]
  rcases s with ⟨⟨⟩, _, _⟩
  cases moved <;> split_ifs <;> simp_all

theorem call_random_demo (env : Env) (lo hi : Int) (s : State) :
    (call_random env lo hi s).2.demo = s.demo := rfl

theorem try_rotation_demo (env : Env) (s : State) :
    (try_rotation env s).2.demo = s.demo := by
  simp only [try_rotation, change_state, logCall, call_try_wall_kick, call_random]
  split_ifs <;> split <;> rfl

theorem check_movement_complete_demo (s : State) :
    (check_movement_complete s).demo.demo_steps_x = s.demo.demo_steps_x ∧
    (check_movement_complete s).demo.demo_steps_y = s.demo.demo_steps_y ∧
    (check_movement_complete s).demo.demo_movement_done =
      (decide (s.demo.demo_steps_x = 0 ∧ s.demo.demo_steps_y = 0) || s.demo.demo_movement_done) := by
  unfold check_movement_complete
  split_ifs with h <;> simp [h]

/-- The step counters and the done flag after one call of the executor made
outside `ANIMATING`. -/
theorem exec_step_fields (env : Env) (s : State)
    (h : s.game.state_current ≠ GameState.STATE_ANIMATING) :
    (demo_execute_movement_step env s).demo.demo_steps_x =
      (if 0 < s.demo.demo_steps_x then u8 ((s.demo.demo_steps_x : Int) - 1)
       else s.demo.demo_steps_x) ∧
    (demo_execute_movement_step env s).demo.demo_steps_y =
      (if (move_x env s).1 = false ∧ 0 < s.demo.demo_steps_y
       then u8 ((s.demo.demo_steps_y : Int) - 1) else s.demo.demo_steps_y) ∧
    (demo_execute_movement_step env s).demo.demo_movement_done =
      (if rotation_succeeded env s = true then s.demo.demo_movement_done
       else (decide ((demo_execute_movement_step env s).demo.demo_steps_x = 0 ∧
               (demo_execute_movement_step env s).demo.demo_steps_y = 0)
             || s.demo.demo_movement_done)) := by
  simp only [demo_execute_movement_step, rotation_succeeded, if_neg h]
  split_ifs <;>
    simp_all [check_movement_complete_demo, try_rotation_demo, call_random_demo, move_y_demo,
      move_x_demo]

/-- One call outside `ANIMATING` never raises a counter and lowers their sum
when it is positive. -/
theorem exec_step_budget (env : Env) (s : State)
    (h : s.game.state_current ≠ GameState.STATE_ANIMATING) :
    (demo_execute_movement_step env s).demo.demo_steps_x +
      (demo_execute_movement_step env s).demo.demo_steps_y ≤
      s.demo.demo_steps_x + s.demo.demo_steps_y - 1 := by
  obtain ⟨hx, hy, _⟩ := exec_step_fields env s h
  rw [hx, hy]
  have mxv : (move_x env s).1 = false ∨ 0 < s.demo.demo_steps_x := by
    unfold move_x
    split_ifs with h0
    · exact Or.inr h0
    · exact Or.inl rfl
  by_cases h0 : 0 < s.demo.demo_steps_x
  · have := u8_pred_le _ h0
    by_cases h1 : 0 < s.demo.demo_steps_y
    · have := u8_pred_le _ h1
      split_ifs <;> omega
    · split_ifs <;> omega
  · rcases mxv with hm | hm
    · by_cases h1 : 0 < s.demo.demo_steps_y
      · have := u8_pred_le _ h1
        simp only [hm, h0, h1, if_false, true_and, if_true]
        omega
      · split_ifs <;> omega
    · exact absurd hm h0

theorem exec_calls_succ (env : Env) (other : Nat → Game → Game) (s0 : State) (k : Nat) :
    exec_calls env other s0 (k + 1) =
      demo_execute_movement_step env (between (other k) (exec_calls env other s0 k)) := rfl

/-- Invariant of a run of the executor whose first `n` calls are made outside
`ANIMATING`: after `k ≤ n` calls at most `a + b - k` steps remain. -/
theorem exec_calls_budget (env : Env) (other : Nat → Game → Game) (s0 : State) (n : Nat)
    (hentry : ∀ k, k < n →
      (between (other k) (exec_calls env other s0 k)).game.state_current
        ≠ GameState.STATE_ANIMATING) :
    ∀ k, k ≤ n →
      (exec_calls env other s0 k).demo.demo_steps_x +
        (exec_calls env other s0 k).demo.demo_steps_y ≤
        s0.demo.demo_steps_x + s0.demo.demo_steps_y - k := by
  intro k
  induction k with
  | zero => intro _; simp [exec_calls]
  | succ k ih =>
    intro hk
    have h1 := ih (by omega)
    have h2 := exec_step_budget env (between (other k) (exec_calls env other s0 k))
      (hentry k (by omega))
    rw [exec_calls_succ]
    simp only [between] at h2 ⊢
    omega

/-- A call made outside `ANIMATING` whose rotation attempt does not succeed sets
the done flag as soon as it ends with both counters at zero. -/
theorem exec_step_done (env : Env) (s : State)
    (h : s.game.state_current ≠ GameState.STATE_ANIMATING)
    (hrot : rotation_succeeded env s = false)
    (hzero : (demo_execute_movement_step env s).demo.demo_steps_x +
      (demo_execute_movement_step env s).demo.demo_steps_y = 0) :
    (demo_execute_movement_step env s).demo.demo_movement_done = true := by
  obtain ⟨_, _, hd⟩ := exec_step_fields env s h
  rw [hd]
  have hx : (demo_execute_movement_step env s).demo.demo_steps_x = 0 := by omega
  have hy : (demo_execute_movement_step env s).demo.demo_steps_y = 0 := by omega
  simp [hrot, hx, hy]

theorem try_rotation_success (env : Env) (s : State) (h : (try_rotation env s).1 = true) :
    (try_rotation env s).2.game.state_current = GameState.STATE_ANIMATING ∧
    (try_rotation env s).2.log.getLast? = some (ExtCall.change_state GameState.STATE_ANIMATING) ∧
    ∃ ax ay az, env.try_wall_kick (call_random env 0 3 s).2.game ax ay az =
      some ((try_rotation env s).2.game.shape_pos_x, (try_rotation env s).2.game.shape_pos_y,
            (try_rotation env s).2.game.shape_pos_z) := by
  simp only [try_rotation, call_try_wall_kick] at h ⊢
  split_ifs at h ⊢ <;> split at h <;> simp_all [change_state, logCall] <;>
    exact ⟨_, _, _, by assumption⟩

/-- A call whose rotation succeeds ends in the rotation block. -/
theorem exec_of_rotation (env : Env) (s : State) (hrot : rotation_succeeded env s = true) :
    s.game.state_current ≠ GameState.STATE_ANIMATING ∧
    (try_rotation env (call_random env 0 2 (after_translation env s)).2).1 = true ∧
    demo_execute_movement_step env s =
      (try_rotation env (call_random env 0 2 (after_translation env s)).2).2 := by
  unfold rotation_succeeded at hrot
  unfold demo_execute_movement_step after_translation
  split_ifs at hrot with h
  simp only [Bool.and_eq_true, decide_eq_true_eq] at hrot
  refine ⟨h, hrot.2, ?_⟩
  simp [h, hrot.1, hrot.2]

theorem move_x_game (env : Env) (s : State) :
    (move_x env s).2.game.shape_pos_y = s.game.shape_pos_y ∧
    (move_x env s).2.game.shape_pos_z = s.game.shape_pos_z ∧
    ((move_x env s).1 = false → (move_x env s).2.game.shape_pos_x = s.game.shape_pos_x) := by
  simp only [move_x, call_is_position_valid, logCall]
  split_ifs <;> simp_all

theorem move_y_game (env : Env) (moved : Bool) (s : State) :
    (move_y env moved s).2.game.shape_pos_x = s.game.shape_pos_x ∧
    (move_y env moved s).2.game.shape_pos_z = s.game.shape_pos_z ∧
    (moved = true → (move_y env moved s).2.game.shape_pos_y = s.game.shape_pos_y) := by
  simp only [move_y, call_is_position_valid, logCall]
  cases moved <;> split_ifs <;> simp_all

theorem move_x_flag (env : Env) (s : State) :
    (move_x env s).1 =
      (decide (0 < s.demo.demo_steps_x) &&
        env.is_position_valid s.game (i8 (s.game.shape_pos_x + s.demo.demo_move_dir_x))
          s.game.shape_pos_y s.game.shape_pos_z) := by
  simp only [move_x, call_is_position_valid]
  split_ifs with h <;> simp [h]

/-! ## Movement executor -/

/-- C3 (amended): a plan with `stepsX = a`, `stepsY = b` is consumed by
`max (a + b) 1` invocations of the executor made outside `ANIMATING`, whatever
the validity oracle, the wall-kick resolver and the random source do: after
them both counters are 0, and the done flag is true provided the rotation
attempt of the last of these invocations did not succeed. -/
theorem executor_done_within_budget (env : Env) (other : Nat → Game → Game) (s0 : State)
    (a b : Nat) (ha : s0.demo.demo_steps_x = a) (hb : s0.demo.demo_steps_y = b)
    (hentry : ∀ k, k < max (a + b) 1 →
      (between (other k) (exec_calls env other s0 k)).game.state_current
        ≠ GameState.STATE_ANIMATING) :
    (exec_calls env other s0 (max (a + b) 1)).demo.demo_steps_x = 0 ∧
    (exec_calls env other s0 (max (a + b) 1)).demo.demo_steps_y = 0 ∧
    (rotation_succeeded env
        (between (other (max (a + b) 1 - 1)) (exec_calls env other s0 (max (a + b) 1 - 1)))
        = false →
      (exec_calls env other s0 (max (a + b) 1)).demo.demo_movement_done = true) := by
  have hb1 := exec_calls_budget env other s0 (max (a + b) 1) hentry (max (a + b) 1) (le_refl _)
  rw [ha, hb] at hb1
  have hN : max (a + b) 1 = (max (a + b) 1 - 1) + 1 := by omega
  have hsum : (exec_calls env other s0 (max (a + b) 1)).demo.demo_steps_x +
      (exec_calls env other s0 (max (a + b) 1)).demo.demo_steps_y = 0 := by omega
  refine ⟨by omega, by omega, ?_⟩
  intro hrot
  have hent := hentry (max (a + b) 1 - 1) (by omega)
  rw [hN, exec_calls_succ] at hsum ⊢
  exact exec_step_done env _ hent hrot hsum

/-- Witness for C3: the plan (2, 1) with every move accepted and every wall kick
refused is done after exactly 3 invocations. -/
theorem executor_done_within_budget_witness :
    (exec_calls (constEnv true false 1 0) (fun _ g => g) (planState 2 1 false)
      (max (2 + 1) 1)).demo.demo_steps_x = 0 ∧
    (exec_calls (constEnv true false 1 0) (fun _ g => g) (planState 2 1 false)
      (max (2 + 1) 1)).demo.demo_steps_y = 0 ∧
    (exec_calls (constEnv true false 1 0) (fun _ g => g) (planState 2 1 false)
      (max (2 + 1) 1)).demo.demo_movement_done = true ∧
    (exec_calls (constEnv true false 1 0) (fun _ g => g) (planState 2 1 false)
      2).demo.demo_movement_done = false :=
  have h := executor_done_within_budget (constEnv true false 1 0) (fun _ g => g)
    (planState 2 1 false) 2 1 rfl rfl (by decide)
  ⟨h.1, h.2.1, h.2.2 (by decide), by decide⟩

/-- Counterexample for C3 as stated.  (i) The empty plan (0, 0) with done = false
is not done after `0 + 0` invocations.  (ii) The plan (1, 0), when the rotation
attempt of the first invocation succeeds, is not done after `1 + 0` invocations:
the call returns from the rotation block before the completion check, and the
state is `ANIMATING`, in which further invocations do nothing. -/
theorem executor_done_bound_counterexample :
    ((planState 0 0 false).demo.demo_movement_done = false ∧
     ¬ (∃ n, n ≤ 0 + 0 ∧
        (exec_calls (constEnv true false 0 0) (fun _ g => g)
          (planState 0 0 false) n).demo.demo_movement_done = true)) ∧
    ((planState 1 0 false).demo.demo_steps_x = 1 ∧
     (planState 1 0 false).demo.demo_steps_y = 0 ∧
     (planState 1 0 false).demo.demo_movement_done = false ∧
     ¬ (∃ n, n ≤ 1 + 0 ∧
        (exec_calls (constEnv true true 1 0) (fun _ g => g)
          (planState 1 0 false) n).demo.demo_movement_done = true) ∧
     (exec_calls (constEnv true true 1 0) (fun _ g => g)
        (planState 1 0 false) 1).game.state_current = GameState.STATE_ANIMATING ∧
     (exec_calls (constEnv true true 1 0) (fun _ g => g)
        (planState 1 0 false) 5).demo.demo_movement_done = false) := by
  decide

/-- A call outside `ANIMATING` whose rotation attempt does not succeed leaves the
piece where the translation blocks put it. -/
theorem exec_without_rotation_position (env : Env) (s : State)
    (hstate : s.game.state_current ≠ GameState.STATE_ANIMATING)
    (hrot : rotation_succeeded env s = false) :
    (demo_execute_movement_step env s).game.shape_pos_x
      = (after_translation env s).game.shape_pos_x ∧
    (demo_execute_movement_step env s).game.shape_pos_y
      = (after_translation env s).game.shape_pos_y ∧
    (demo_execute_movement_step env s).game.shape_pos_z
      = (after_translation env s).game.shape_pos_z := by
  have hfail : ∀ u, (try_rotation env u).1 = false →
      (try_rotation env u).2.game.shape_pos_x = u.game.shape_pos_x ∧
      (try_rotation env u).2.game.shape_pos_y = u.game.shape_pos_y ∧
      (try_rotation env u).2.game.shape_pos_z = u.game.shape_pos_z := by
    intro u h
    simp only [try_rotation, call_try_wall_kick] at h ⊢
    split_ifs at h ⊢ <;> split at h <;> simp_all [change_state, logCall, call_random]
  have hcheck : ∀ u, (check_movement_complete u).game = u.game := by
    intro u
    unfold check_movement_complete
    split_ifs <;> rfl
  simp only [rotation_succeeded, if_neg hstate] at hrot
  simp only [demo_execute_movement_step, if_neg hstate, after_translation]
  by_cases hcoin : (call_random env 0 2 (move_y env (move_x env s).1 (move_x env s).2).2).1 ≠ 0
  · have hr : (try_rotation env
        (call_random env 0 2 (move_y env (move_x env s).1 (move_x env s).2).2).2).1 = false := by
      simpa [hcoin] using hrot
    obtain ⟨r1, r2, r3⟩ := hfail _ hr
    simp only [hcoin, hr, if_true, ne_eq, not_false_eq_true, Bool.false_eq_true, if_false]
    rw [hcheck, r1, r2, r3]
    exact ⟨rfl, rfl, rfl⟩
  · simp only [hcoin, if_false]
    rw [hcheck]
    exact ⟨rfl, rfl, rfl⟩

/-- C4 (amended): in every call of the executor the translation blocks commit at
most one translation: the position they reach differs from the one at entry in
at most one of x and y, never in z; in `ANIMATING` the call changes nothing, and
when the rotation attempt does not succeed the piece stays where the
translation blocks put it.  The rotation attempt is made after them in the same
call: when it succeeds, the wall-kick resolver was queried at the position
reached by the translation blocks, the piece position becomes the resolver's
answer and the game state becomes `ANIMATING` (the last external call is
`change_state(STATE_ANIMATING)`), so a translation and a rotation can both
change the piece position in one call. -/
theorem rotation_follows_translation (env : Env) (s : State) :
    ((after_translation env s).game.shape_pos_x = s.game.shape_pos_x ∨
     (after_translation env s).game.shape_pos_y = s.game.shape_pos_y) ∧
    (after_translation env s).game.shape_pos_z = s.game.shape_pos_z ∧
    (s.game.state_current = GameState.STATE_ANIMATING →
      demo_execute_movement_step env s = s) ∧
    (s.game.state_current ≠ GameState.STATE_ANIMATING → rotation_succeeded env s = false →
      (demo_execute_movement_step env s).game.shape_pos_x
        = (after_translation env s).game.shape_pos_x ∧
      (demo_execute_movement_step env s).game.shape_pos_y
        = (after_translation env s).game.shape_pos_y ∧
      (demo_execute_movement_step env s).game.shape_pos_z
        = (after_translation env s).game.shape_pos_z) ∧
    (rotation_succeeded env s = true →
      (demo_execute_movement_step env s).game.state_current = GameState.STATE_ANIMATING ∧
      (demo_execute_movement_step env s).log.getLast?
        = some (ExtCall.change_state GameState.STATE_ANIMATING) ∧
      (∃ ax ay az, env.try_wall_kick (rotation_entry env s).game ax ay az =
        some ((demo_execute_movement_step env s).game.shape_pos_x,
              (demo_execute_movement_step env s).game.shape_pos_y,
              (demo_execute_movement_step env s).game.shape_pos_z)) ∧
      (rotation_entry env s).game.shape_pos_x = (after_translation env s).game.shape_pos_x ∧
      (rotation_entry env s).game.shape_pos_y = (after_translation env s).game.shape_pos_y ∧
      (rotation_entry env s).game.shape_pos_z = (after_translation env s).game.shape_pos_z) := by
  refine ⟨?_, ?_, ?_, ?_, ?_⟩
  · obtain ⟨hxy, _, hxx⟩ := move_x_game env s
    obtain ⟨hyx, _, hyy⟩ := move_y_game env (move_x env s).1 (move_x env s).2
    unfold after_translation
    by_cases hm : (move_x env s).1 = true
    · right; rw [hyy hm, hxy]
    · left; rw [hyx, hxx (by simpa using hm)]
  · obtain ⟨_, hxz, _⟩ := move_x_game env s
    obtain ⟨_, hyz, _⟩ := move_y_game env (move_x env s).1 (move_x env s).2
    unfold after_translation
    rw [hyz, hxz]
  · intro h
    simp [demo_execute_movement_step, h]
  · intro hstate hrot
    exact exec_without_rotation_position env s hstate hrot
  · intro hrot
    obtain ⟨_, h1, h2⟩ := exec_of_rotation env s hrot
    obtain ⟨h3, h4, h5⟩ := try_rotation_success env _ h1
    rw [h2]
    exact ⟨h3, h4, h5, rfl, rfl, rfl⟩

/-- Witness for C4: one X step is accepted and the rotation succeeds; with the
wall kick refused the piece stays at the translated position. -/
theorem rotation_follows_translation_witness :
    rotation_succeeded (constEnv true true 1 0) (planState 1 0 false) = true ∧
    (demo_execute_movement_step (constEnv true true 1 0) (planState 1 0 false)).game.state_current
      = GameState.STATE_ANIMATING ∧
    (demo_execute_movement_step (constEnv true false 1 0) (planState 1 0 false)).game.shape_pos_x
      = (after_translation (constEnv true false 1 0) (planState 1 0 false)).game.shape_pos_x :=
  ⟨by decide,
   ((rotation_follows_translation (constEnv true true 1 0) (planState 1 0 false)).2.2.2.2
     (by decide)).1,
   ((rotation_follows_translation (constEnv true false 1 0) (planState 1 0 false)).2.2.2.1
     (by decide) (by decide)).1⟩

/-- Counterexample for C4 as stated: in one call the X translation is committed
(x goes from 0 to 1) and then the rotation succeeds (the wall kick moves y from
0 to 1), so both change the piece position in the same call. -/
theorem translation_and_rotation_counterexample :
    rotation_succeeded (constEnv true true 1 0) (planState 1 0 false) = true ∧
    translation_committed (constEnv true true 1 0) (planState 1 0 false) = true ∧
    (planState 1 0 false).game.shape_pos_x = 0 ∧
    (planState 1 0 false).game.shape_pos_y = 0 ∧
    (after_translation (constEnv true true 1 0) (planState 1 0 false)).game.shape_pos_x = 1 ∧
    (after_translation (constEnv true true 1 0) (planState 1 0 false)).game.shape_pos_y = 0 ∧
    (demo_execute_movement_step (constEnv true true 1 0) (planState 1 0 false)).game.shape_pos_x
      = 1 ∧
    (demo_execute_movement_step (constEnv true true 1 0) (planState 1 0 false)).game.shape_pos_y
      = 1 ∧
    (demo_execute_movement_step (constEnv true true 1 0) (planState 1 0 false)).game.state_current
      = GameState.STATE_ANIMATING := by
  decide

/-- C5 (amended): in `ANIMATING` a call of the executor changes nothing.  In
every other state a single call reduces `stepsX` by one when it is positive, and
reduces `stepsY` by one when it is positive and no X move was committed in this
call, that is, when `stepsX` was 0 or the X move was rejected; a counter that is
0 stays 0.  A counter is reduced whether or not its move is accepted, and a call
whose X move is rejected reduces both counters. -/
theorem executor_step_counters (env : Env) (s : State)
    (hx : s.demo.demo_steps_x < 256) (hy : s.demo.demo_steps_y < 256) :
    (s.game.state_current = GameState.STATE_ANIMATING →
      demo_execute_movement_step env s = s) ∧
    (s.game.state_current ≠ GameState.STATE_ANIMATING →
      (demo_execute_movement_step env s).demo.demo_steps_x = s.demo.demo_steps_x - 1 ∧
      (demo_execute_movement_step env s).demo.demo_steps_y =
        (if s.demo.demo_steps_x = 0 ∨
            env.is_position_valid s.game (i8 (s.game.shape_pos_x + s.demo.demo_move_dir_x))
              s.game.shape_pos_y s.game.shape_pos_z = false
         then s.demo.demo_steps_y - 1 else s.demo.demo_steps_y)) := by
  refine ⟨fun h => by simp [demo_execute_movement_step, h], fun h => ?_⟩
  obtain ⟨h1, h2, _⟩ := exec_step_fields env s h
  rw [h1, h2, move_x_flag]
  constructor
  · split_ifs with h0
    · exact u8_pred_eq _ h0 hx
    · omega
  · by_cases h0 : 0 < s.demo.demo_steps_x
    · by_cases hv : env.is_position_valid s.game
          (i8 (s.game.shape_pos_x + s.demo.demo_move_dir_x)) s.game.shape_pos_y
          s.game.shape_pos_z = true
      · have hne : s.demo.demo_steps_x ≠ 0 := by omega
        simp [h0, hv, hne]
      · have hv2 : env.is_position_valid s.game
          (i8 (s.game.shape_pos_x + s.demo.demo_move_dir_x)) s.game.shape_pos_y
          s.game.shape_pos_z = false := by simpa using hv
        by_cases h1 : 0 < s.demo.demo_steps_y
        · simp [h0, hv2, h1, u8_pred_eq _ h1 hy]
        · have : s.demo.demo_steps_y = 0 := by omega
          simp [h0, hv2, this]
    · have hz : s.demo.demo_steps_x = 0 := by omega
      by_cases h1 : 0 < s.demo.demo_steps_y
      · simp [hz, h1, u8_pred_eq _ h1 hy]
      · have : s.demo.demo_steps_y = 0 := by omega
        simp [hz, this]

/-- Witness for C5: the plan (1, 1) with the X move rejected. -/
theorem executor_step_counters_witness :
    (demo_execute_movement_step (constEnv false false 0 0) (planState 1 1 false)).demo.demo_steps_x
      = 1 - 1 ∧
    (demo_execute_movement_step (constEnv false false 0 0) (planState 1 1 false)).demo.demo_steps_y
      = 1 - 1 :=
  have h := (executor_step_counters (constEnv false false 0 0) (planState 1 1 false)
    (by decide) (by decide)).2 (by decide)
  ⟨h.1, h.2⟩

/-- Counterexample for C5 as stated: with the plan (1, 1) and the X move rejected,
one call attempts both moves and decrements both counters. -/
theorem both_counters_decremented_counterexample :
    (planState 1 1 false).demo.demo_steps_x = 1 ∧
    (planState 1 1 false).demo.demo_steps_y = 1 ∧
    (demo_execute_movement_step (constEnv false false 0 0) (planState 1 1 false)).demo.demo_steps_x
      = 0 ∧
    (demo_execute_movement_step (constEnv false false 0 0) (planState 1 1 false)).demo.demo_steps_y
      = 0 ∧
    (demo_execute_movement_step (constEnv false false 0 0) (planState 1 1 false)).log =
      [ExtCall.is_position_valid 1 0 0, ExtCall.is_position_valid 0 1 0, ExtCall.random 0 2] := by
  decide

/-! ## Cycle controller: lemmas -/

theorem demo_reset_cycle_log (env : Env) (s : State) :
    (demo_reset_cycle env s).log = s.log ++ [ExtCall.reset_game_state,
      ExtCall.update_static_buffer, ExtCall.random 0 2, ExtCall.spawn_new_shape] := by
  simp [demo_reset_cycle, call_spawn_new_shape, call_random, call_update_static_buffer,
    call_reset_game_state, logCall]

theorem demo_reset_cycle_fields (env : Env) (s : State) :
    (demo_reset_cycle env s).demo.demo_timer = 0 ∧
    (demo_reset_cycle env s).demo.demo_center_drop_active = true ∧
    (demo_reset_cycle env s).demo.demo_movement_done = false ∧
    (demo_reset_cycle env s).demo.demo_move_dir_x = s.demo.demo_move_dir_x ∧
    (demo_reset_cycle env s).demo.demo_move_dir_y = s.demo.demo_move_dir_y ∧
    (demo_reset_cycle env s).demo.demo_steps_x = s.demo.demo_steps_x ∧
    (demo_reset_cycle env s).demo.demo_steps_y = s.demo.demo_steps_y := by
  simp [demo_reset_cycle, call_spawn_new_shape, call_random, call_update_static_buffer,
    call_reset_game_state, logCall]

theorem demo_plan_random_movement_log (env : Env) (s : State) :
    (demo_plan_random_movement env s).log = s.log ++ [ExtCall.random 0 2,
      ExtCall.random 0 ((s.game.PIT_WIDTH : Int) / 2 + 1), ExtCall.random 0 2,
      ExtCall.random 0 ((s.game.PIT_DEPTH : Int) / 2 + 1)] := by
  simp [demo_plan_random_movement, call_random, logCall]

theorem demo_plan_random_movement_fields (env : Env) (s : State) :
    (demo_plan_random_movement env s).demo.demo_center_drop_active
      = s.demo.demo_center_drop_active ∧
    (demo_plan_random_movement env s).demo.demo_lines_base = s.demo.demo_lines_base ∧
    (demo_plan_random_movement env s).demo.demo_clear_target = s.demo.demo_clear_target ∧
    (demo_plan_random_movement env s).demo.demo_timer = s.demo.demo_timer ∧
    (demo_plan_random_movement env s).demo.demo_mode = s.demo.demo_mode ∧
    (demo_plan_random_movement env s).demo.demo_movement_done = false := by
  simp [demo_plan_random_movement, call_random, logCall]

theorem u16_of_lt (n : Nat) (h : n < 65536) : u16 (n : Int) = n := by
  unfold u16; omega

theorem FlagStep.rfl (s : State) : FlagStep s s := ⟨le_refl _, fun h => Or.inl h⟩

theorem FlagStep.trans {s t u : State} (h1 : FlagStep s t) (h2 : FlagStep t u) :
    FlagStep s u := by
  refine ⟨le_trans h1.1 h2.1, fun h => ?_⟩
  rcases h2.2 h with h3 | h3
  · rcases h1.2 h3 with h4 | h4
    · exact Or.inl h4
    · exact Or.inr (lt_of_lt_of_le h4 h2.1)
  · exact Or.inr (lt_of_le_of_lt h1.1 h3)

/-- A step that keeps the flag and performs no reset. -/
theorem FlagStep.of_eq {s t : State} (hf : t.demo.demo_center_drop_active = s.demo.demo_center_drop_active)
   (hr : resets t = resets s) : FlagStep s t :=
  ⟨by omega, fun h => Or.inl (by rw [← hf]; exact h)⟩

theorem flagStep_reset_cycle (env : Env) (s : State) : FlagStep s (demo_reset_cycle env s) := by
  refine ⟨?_, fun _ => Or.inr ?_⟩ <;>
  simp [resets, demo_reset_cycle, call_spawn_new_shape, call_random, call_update_static_buffer,
    call_reset_game_state, logCall, List.count_append]

theorem flagStep_plan (env : Env) (s : State) : FlagStep s (demo_plan_random_movement env s) := by
  apply FlagStep.of_eq <;>
  simp [resets, demo_plan_random_movement, call_random, logCall, List.count_append]

theorem resets_move_x (env : Env) (s : State) : resets (move_x env s).2 = resets s := by
  simp only [move_x, call_is_position_valid, logCall, resets]
  split_ifs <;> simp [List.count_append]

theorem resets_move_y (env : Env) (moved : Bool) (s : State) :
    resets (move_y env moved s).2 = resets s := by
  simp only [move_y, call_is_position_valid, logCall, resets]
  cases moved <;> split_ifs <;> simp_all [List.count_append]

theorem resets_call_random (env : Env) (lo hi : Int) (s : State) :
    resets (call_random env lo hi s).2 = resets s := by
  simp [call_random, logCall, resets, List.count_append]

theorem resets_try_rotation (env : Env) (s : State) :
    resets (try_rotation env s).2 = resets s := by
  simp only [try_rotation, change_state, logCall, call_try_wall_kick, call_random, resets]
  split_ifs <;> split <;> simp [List.count_append]

theorem resets_check_movement_complete (s : State) :
    resets (check_movement_complete s) = resets s := by
  unfold check_movement_complete resets
  split_ifs <;> rfl

theorem check_movement_complete_flag (s : State) :
    (check_movement_complete s).demo.demo_center_drop_active = s.demo.demo_center_drop_active := by
  unfold check_movement_complete
  split_ifs <;> rfl

theorem flagStep_exec (env : Env) (s : State) : FlagStep s (demo_execute_movement_step env s) := by
  apply FlagStep.of_eq
  · simp only [demo_execute_movement_step]
    split_ifs <;>
    simp [check_movement_complete_flag, try_rotation_demo, call_random_demo, move_y_demo,
      move_x_demo]
  · simp only [demo_execute_movement_step]
    split_ifs <;>
    simp [resets_check_movement_complete, resets_try_rotation, resets_call_random, resets_move_y,
      resets_move_x]

theorem flagStep_force_fast_drop (s : State) : FlagStep s (force_fast_drop s) := by
  apply FlagStep.of_eq <;> simp [force_fast_drop, change_state, logCall, resets, List.count_append]

theorem flagStep_on_new_shape (env : Env) (s : State) : FlagStep s (demo_on_new_shape env s) := by
  unfold demo_on_new_shape
  split_ifs with h1 h2
  · refine ⟨?_, fun _ => Or.inl h1⟩
    simp [resets, demo_plan_random_movement, call_random, logCall, List.count_append]
  · exact flagStep_reset_cycle env s
  · exact flagStep_plan env s

theorem flagStep_tick (env : Env) (s : State) : FlagStep s (demo_tick env s) := by
  have hlog : FlagStep s (demo_should_reset env s).2 := by
    apply FlagStep.of_eq <;>
    simp [demo_should_reset, call_count_occupied_levels, logCall, resets, List.count_append]
  have hdisp : ∀ u, FlagStep u (demo_tick_dispatch env u) := by
    intro u
    unfold demo_tick_dispatch
    split_ifs
    · refine FlagStep.trans ?_ (flagStep_on_new_shape env _)
      apply FlagStep.of_eq <;> rfl
    · exact FlagStep.rfl u
  have htimer : ∀ u, FlagStep u (demo_tick_timer u) := fun u => by
    apply FlagStep.of_eq <;> rfl
  have hmove : ∀ u, FlagStep u (demo_tick_move env u) := by
    intro u
    have hr : FlagStep u (call_random env 8 50 u).2 := by
      apply FlagStep.of_eq
      · rfl
      · exact resets_call_random env 8 50 u
    unfold demo_tick_move
    simp only []
    split_ifs
    · exact FlagStep.trans hr (flagStep_exec env _)
    · exact hr
    · exact hr
  have hplay : ∀ u, FlagStep u (demo_tick_playing env u) := by
    intro u
    unfold demo_tick_playing
    simp only []
    split_ifs
    · exact FlagStep.trans (htimer u) (flagStep_force_fast_drop _)
    · exact htimer u
    · exact FlagStep.trans (FlagStep.trans (htimer u) (hmove _)) (flagStep_force_fast_drop _)
    · exact FlagStep.trans (htimer u) (hmove _)
  unfold demo_tick
  simp only []
  split_ifs
  · exact FlagStep.rfl s
  · exact FlagStep.trans hlog (flagStep_reset_cycle env _)
  · exact FlagStep.trans hlog (hdisp _)
  · exact FlagStep.trans hlog (FlagStep.trans (hdisp _) (hplay _))

theorem flagStep_start (env : Env) (s : State) : FlagStep s (demo_start env s) := by
  unfold demo_start
  split_ifs
  · exact FlagStep.rfl s
  · have h1 : FlagStep s { call_apply_selected_pit_size env s with
        demo := { (call_apply_selected_pit_size env s).demo with demo_mode := true } } := by
      apply FlagStep.of_eq <;>
      simp [call_apply_selected_pit_size, logCall, resets, List.count_append]
    refine FlagStep.trans (FlagStep.trans h1 (flagStep_reset_cycle env _)) ?_
    apply FlagStep.of_eq <;> simp [change_state, logCall, resets, List.count_append]

theorem flagStep_stop (s : State) : FlagStep s (demo_stop s) := by
  unfold demo_stop
  split_ifs
  · exact FlagStep.rfl s
  · apply FlagStep.of_eq <;> simp [change_state, logCall, resets, List.count_append]

theorem flagStep_idle_update (env : Env) (a b : Bool) (s : State) :
    FlagStep s (demo_idle_update env a b s).2 := by
  unfold demo_idle_update
  simp only []
  split_ifs
  · apply FlagStep.of_eq <;> rfl
  · apply FlagStep.of_eq <;> rfl
  · have h1 : FlagStep s { s with demo := { s.demo with
        start_screen_idle_frames := u16 ((s.demo.start_screen_idle_frames : Int) + 1) } } := by
      apply FlagStep.of_eq <;> rfl
    refine FlagStep.trans (FlagStep.trans h1 (flagStep_start env _)) ?_
    apply FlagStep.of_eq <;> rfl
  · apply FlagStep.of_eq <;> rfl

theorem flagStep_notify (s : State) : FlagStep s (demo_notify_start_screen_input s) := by
  apply FlagStep.of_eq <;> rfl

/-- The executor writes only the two step counters and the done flag. -/
theorem exec_demo_frame (env : Env) (s : State) :
    (demo_execute_movement_step env s).demo.demo_mode = s.demo.demo_mode ∧
    (demo_execute_movement_step env s).demo.start_screen_idle_frames
      = s.demo.start_screen_idle_frames ∧
    (demo_execute_movement_step env s).demo.demo_timer = s.demo.demo_timer ∧
    (demo_execute_movement_step env s).demo.demo_lines_base = s.demo.demo_lines_base ∧
    (demo_execute_movement_step env s).demo.demo_last_cubes_played
      = s.demo.demo_last_cubes_played ∧
    (demo_execute_movement_step env s).demo.demo_clear_target = s.demo.demo_clear_target ∧
    (demo_execute_movement_step env s).demo.demo_move_dir_x = s.demo.demo_move_dir_x ∧
    (demo_execute_movement_step env s).demo.demo_move_dir_y = s.demo.demo_move_dir_y ∧
    (demo_execute_movement_step env s).demo.demo_center_drop_active
      = s.demo.demo_center_drop_active := by
  simp only [demo_execute_movement_step, check_movement_complete]
  split_ifs <;>
    simp [try_rotation_demo, call_random_demo, move_y_demo, move_x_demo]

/-- The part of `demo_tick` behind the state gate keeps the center-drop flag and
the lines-cleared base. -/
theorem tick_playing_frame (env : Env) (s : State) :
    (demo_tick_playing env s).demo.demo_center_drop_active = s.demo.demo_center_drop_active ∧
    (demo_tick_playing env s).demo.demo_lines_base = s.demo.demo_lines_base := by
  obtain ⟨_, _, _, hb, _, _, _, _, hf⟩ :=
    exec_demo_frame env (call_random env 8 50 (demo_tick_timer s)).2
  simp only [demo_tick_playing, demo_tick_move, force_fast_drop, change_state, logCall]
  split_ifs <;> simp_all [call_random_demo, demo_tick_timer]

theorem resets_exec (env : Env) (s : State) :
    resets (demo_execute_movement_step env s) = resets s := by
  simp only [demo_execute_movement_step]
  split_ifs <;>
    simp [resets_check_movement_complete, resets_try_rotation, resets_call_random, resets_move_y,
      resets_move_x]

theorem resets_tick_playing (env : Env) (s : State) :
    resets (demo_tick_playing env s) = resets s := by
  have h1 : ∀ u, resets (force_fast_drop u) = resets u := fun u => by
    simp [force_fast_drop, change_state, logCall, resets, List.count_append]
  have h2 : resets (demo_tick_timer s) = resets s := rfl
  have h3 : ∀ u, resets (demo_tick_move env u) = resets u := by
    intro u
    simp only [demo_tick_move]
    split_ifs <;> simp [resets_exec, resets_call_random]
  simp only [demo_tick_playing]
  split_ifs <;> simp [h1, h2, h3]

theorem on_new_shape_center_drop (env : Env) (s : State)
    (h : s.demo.demo_center_drop_active = true) :
    demo_on_new_shape env s = demo_plan_random_movement env
      { s with demo := { s.demo with
          demo_center_drop_active := false, demo_lines_base := s.game.lines_cleared } } := by
  simp [demo_on_new_shape, h]

theorem tick_calls_succ (env : Env) (other : Nat → Game → Game) (s0 : State) (k : Nat) :
    tick_calls env other s0 (k + 1) =
      demo_tick env (between (other k) (tick_calls env other s0 k)) := rfl

/-- A tick of an active session that performs no round reset is not near-full. -/
theorem tick_no_reset (env : Env) (s : State) (hm : s.demo.demo_mode = true)
    (hr : resets (demo_tick env s) = resets s) : (demo_should_reset env s).1 = false := by
  by_contra hne
  have ht : (demo_should_reset env s).1 = true := by simpa using hne
  have h1 : demo_tick env s = demo_reset_cycle env (demo_should_reset env s).2 := by
    simp [demo_tick, hm, ht]
  have h2 : resets (demo_reset_cycle env (demo_should_reset env s).2) = resets s + 1 := by
    simp [resets, demo_reset_cycle_log, demo_should_reset, call_count_occupied_levels, logCall,
      List.count_append]
  rw [h1, h2] at hr
  omega

theorem tick_new_piece_clears (env : Env) (s : State)
    (h : s.demo.demo_center_drop_active = true) (hm : s.demo.demo_mode = true)
    (hr : (demo_should_reset env s).1 = false)
    (hc : s.game.cubes_played ≠ s.demo.demo_last_cubes_played) :
    (demo_tick env s).demo.demo_center_drop_active = false ∧
    (demo_tick env s).demo.demo_lines_base = s.game.lines_cleared ∧
    resets (demo_tick env s) = resets s := by
  have hlog : (demo_should_reset env s).2 = logCall ExtCall.count_occupied_levels s := rfl
  have hd : demo_tick_dispatch env (demo_should_reset env s).2 =
      demo_plan_random_movement env
        { s with
          demo := { s.demo with
            demo_last_cubes_played := s.game.cubes_played
            demo_center_drop_active := false
            demo_lines_base := s.game.lines_cleared }
          log := s.log ++ [ExtCall.count_occupied_levels] } := by
    rw [hlog]
    simp [demo_tick_dispatch, logCall, hc, demo_on_new_shape, h]
  obtain ⟨h1, h2, _⟩ := demo_plan_random_movement_fields env
    { s with
      demo := { s.demo with
        demo_last_cubes_played := s.game.cubes_played
        demo_center_drop_active := false
        demo_lines_base := s.game.lines_cleared }
      log := s.log ++ [ExtCall.count_occupied_levels] }
  have h3 : resets (demo_plan_random_movement env
    { s with
      demo := { s.demo with
        demo_last_cubes_played := s.game.cubes_played
        demo_center_drop_active := false
        demo_lines_base := s.game.lines_cleared }
      log := s.log ++ [ExtCall.count_occupied_levels] }) = resets s := by
    simp [resets, demo_plan_random_movement_log, List.count_append]
  obtain ⟨hf, hb⟩ := tick_playing_frame env (demo_tick_dispatch env (demo_should_reset env s).2)
  have hrs := resets_tick_playing env (demo_tick_dispatch env (demo_should_reset env s).2)
  simp only [demo_tick, hm, hr]
  simp only [Bool.not_true, Bool.false_eq_true, if_false]
  split_ifs
  · rw [hd]; exact ⟨h1, h2, h3⟩
  · rw [hf, hb, hrs, hd]; exact ⟨h1, h2, h3⟩

theorem tick_same_piece_keeps (env : Env) (s : State) (hm : s.demo.demo_mode = true)
    (hr : (demo_should_reset env s).1 = false)
    (hc : s.game.cubes_played = s.demo.demo_last_cubes_played) :
    (demo_tick env s).demo.demo_center_drop_active = s.demo.demo_center_drop_active := by
  obtain ⟨hf, _⟩ := tick_playing_frame env (demo_should_reset env s).2
  have hd : demo_tick_dispatch env (demo_should_reset env s).2 = (demo_should_reset env s).2 := by
    simp [demo_tick_dispatch, demo_should_reset, call_count_occupied_levels, logCall, hc]
  simp only [demo_tick, hm, hr, hd]
  simp only [Bool.not_true, Bool.false_eq_true, if_false]
  split_ifs
  · rfl
  · rw [hf]; rfl

/-- Within a round the flag is true exactly until the first new-piece event. -/
theorem center_drop_round (env : Env) (other : Nat → Game → Game) (s0 : State) (n : Nat)
    (hflag : s0.demo.demo_center_drop_active = true)
    (hactive : ∀ k, k < n → (tick_calls env other s0 k).demo.demo_mode = true)
    (hround : ∀ k, k ≤ n → resets (tick_calls env other s0 k) = resets s0) :
    ∀ k, k ≤ n →
      ((tick_calls env other s0 k).demo.demo_center_drop_active = true ↔
        ∀ i, i < k → new_piece_at env other s0 i = false) := by
  intro k
  induction k with
  | zero => intro _; simpa [tick_calls] using hflag
  | succ k ih =>
    intro hk
    have ihk := ih (by omega)
    have hm : (between (other k) (tick_calls env other s0 k)).demo.demo_mode = true :=
      hactive k (by omega)
    have hres : resets (demo_tick env (between (other k) (tick_calls env other s0 k))) =
        resets (between (other k) (tick_calls env other s0 k)) := by
      have h1 := hround (k + 1) hk
      have h2 := hround k (by omega)
      rw [tick_calls_succ] at h1
      rw [h1]; exact h2.symm
    have hnf := tick_no_reset env _ hm hres
    rw [tick_calls_succ]
    constructor
    · intro hf i hi
      have hstep := (flagStep_tick env (between (other k) (tick_calls env other s0 k))).2 hf
      have hprev : (tick_calls env other s0 k).demo.demo_center_drop_active = true := by
        rcases hstep with h | h
        · exact h
        · omega
      by_cases hik : i < k
      · exact ihk.1 hprev i hik
      · have : i = k := by omega
        subst this
        by_contra hnp
        have hnp2 : (between (other i) (tick_calls env other s0 i)).game.cubes_played ≠
            (between (other i) (tick_calls env other s0 i)).demo.demo_last_cubes_played := by
          simpa [new_piece_at, between] using hnp
        have := (tick_new_piece_clears env (between (other i) (tick_calls env other s0 i))
          hprev hm hnf hnp2).1
        rw [hf] at this
        exact Bool.noConfusion this
    · intro hall
      have hprev := ihk.2 (fun i hi => hall i (by omega))
      have hnp : (between (other k) (tick_calls env other s0 k)).game.cubes_played =
          (between (other k) (tick_calls env other s0 k)).demo.demo_last_cubes_played := by
        have := hall k (by omega)
        simpa [new_piece_at, between] using this
      rw [tick_same_piece_keeps env _ hm hnf hnp]
      exact hprev

/-! ## Cycle controller -/

/-- C6: in an active session whose occupied-level count is at least
`PIT_HEIGHT - 2` (for a pit of height at least 2), `demo_tick` is exactly the
occupancy query followed by `demo_reset_cycle`: its external calls are the
query and the four calls of the reset, so there is no new-piece dispatch, no
executor call and no `change_state`; the timer is 0 (not incremented), the
center-drop flag is set and the plan's directions and counters are untouched,
whatever the other fields are. -/
theorem near_full_tick_resets (env : Env) (s : State)
    (hactive : s.demo.demo_mode = true) (hheight : 2 ≤ s.game.PIT_HEIGHT)
    (hfull : s.game.PIT_HEIGHT - 2 ≤ env.count_occupied_levels s.game) :
    demo_tick env s = demo_reset_cycle env (logCall ExtCall.count_occupied_levels s) ∧
    (demo_tick env s).log = s.log ++ [ExtCall.count_occupied_levels, ExtCall.reset_game_state,
      ExtCall.update_static_buffer, ExtCall.random 0 2, ExtCall.spawn_new_shape] ∧
    (demo_tick env s).demo.demo_timer = 0 ∧
    (demo_tick env s).demo.demo_center_drop_active = true ∧
    (demo_tick env s).demo.demo_move_dir_x = s.demo.demo_move_dir_x ∧
    (demo_tick env s).demo.demo_move_dir_y = s.demo.demo_move_dir_y ∧
    (demo_tick env s).demo.demo_steps_x = s.demo.demo_steps_x ∧
    (demo_tick env s).demo.demo_steps_y = s.demo.demo_steps_y := by
  have hle : u8 ((s.game.PIT_HEIGHT : Int) - 2) ≤ env.count_occupied_levels s.game := by
    unfold u8; omega
  have htick : demo_tick env s = demo_reset_cycle env (logCall ExtCall.count_occupied_levels s) := by
    simp [demo_tick, hactive, demo_should_reset, call_count_occupied_levels, logCall, hle]
  obtain ⟨h1, h2, _, h4, h5, h6, h7⟩ :=
    demo_reset_cycle_fields env (logCall ExtCall.count_occupied_levels s)
  rw [htick]
  refine ⟨rfl, ?_, h1, h2, h4, h5, h6, h7⟩
  rw [demo_reset_cycle_log]
  simp [logCall]

/-- Witness for C6: height 10, 8 occupied levels. -/
theorem near_full_tick_resets_witness :
    (demo_tick (constEnv true true 1 8) (planState 2 1 false)).demo.demo_timer = 0 ∧
    (demo_tick (constEnv true true 1 8) (planState 2 1 false)).log =
      [ExtCall.count_occupied_levels, ExtCall.reset_game_state, ExtCall.update_static_buffer,
       ExtCall.random 0 2, ExtCall.spawn_new_shape] :=
  have h := near_full_tick_resets (constEnv true true 1 8) (planState 2 1 false) rfl
    (by decide) (by decide)
  ⟨h.2.2.1, h.2.1⟩

/-- C7 (amended): at a new-piece event with the center-drop flag false, the
quota test is `lines_cleared >= (uint16_t)(demo_lines_base + demo_clear_target)`.
When it holds, a full round reset is performed (the external calls are exactly
those of `demo_reset_cycle`) and the plan's directions and step counters are
not re-drawn; when it fails, the planner is invoked (the external calls are
exactly its four draws of `random`), no reset is performed and the flag, the
base and the target are unchanged.  The 16-bit sum is the plain sum whenever
`demo_lines_base + demo_clear_target < 65536`. -/
theorem new_shape_quota (env : Env) (s : State)
    (hflag : s.demo.demo_center_drop_active = false) :
    (u16 ((s.demo.demo_lines_base : Int) + s.demo.demo_clear_target) ≤ s.game.lines_cleared →
      demo_on_new_shape env s = demo_reset_cycle env s ∧
      (demo_on_new_shape env s).log = s.log ++ [ExtCall.reset_game_state,
        ExtCall.update_static_buffer, ExtCall.random 0 2, ExtCall.spawn_new_shape] ∧
      (demo_on_new_shape env s).demo.demo_move_dir_x = s.demo.demo_move_dir_x ∧
      (demo_on_new_shape env s).demo.demo_move_dir_y = s.demo.demo_move_dir_y ∧
      (demo_on_new_shape env s).demo.demo_steps_x = s.demo.demo_steps_x ∧
      (demo_on_new_shape env s).demo.demo_steps_y = s.demo.demo_steps_y) ∧
    (¬ u16 ((s.demo.demo_lines_base : Int) + s.demo.demo_clear_target) ≤ s.game.lines_cleared →
      demo_on_new_shape env s = demo_plan_random_movement env s ∧
      (demo_on_new_shape env s).log = s.log ++ [ExtCall.random 0 2,
        ExtCall.random 0 ((s.game.PIT_WIDTH : Int) / 2 + 1), ExtCall.random 0 2,
        ExtCall.random 0 ((s.game.PIT_DEPTH : Int) / 2 + 1)] ∧
      (demo_on_new_shape env s).demo.demo_center_drop_active = false ∧
      (demo_on_new_shape env s).demo.demo_lines_base = s.demo.demo_lines_base ∧
      (demo_on_new_shape env s).demo.demo_clear_target = s.demo.demo_clear_target) ∧
    (s.demo.demo_lines_base + s.demo.demo_clear_target < 65536 →
      u16 ((s.demo.demo_lines_base : Int) + s.demo.demo_clear_target)
        = s.demo.demo_lines_base + s.demo.demo_clear_target) := by
  refine ⟨?_, ?_, ?_⟩
  · intro hq
    have h : demo_on_new_shape env s = demo_reset_cycle env s := by
      simp [demo_on_new_shape, hflag, hq]
    obtain ⟨_, _, _, h4, h5, h6, h7⟩ := demo_reset_cycle_fields env s
    rw [h]
    exact ⟨rfl, demo_reset_cycle_log env s, h4, h5, h6, h7⟩
  · intro hq
    have h : demo_on_new_shape env s = demo_plan_random_movement env s := by
      simp [demo_on_new_shape, hflag, hq]
    obtain ⟨h1, h2, h3, _⟩ := demo_plan_random_movement_fields env s
    rw [h]
    exact ⟨rfl, demo_plan_random_movement_log env s, by rw [h1, hflag], h2, h3⟩
  · intro hlt
    have := u16_of_lt _ hlt
    push_cast at this
    exact this

/-- Witness for C7: base 3, target 2; with 5 lines cleared the round is reset,
with 4 the planner runs. -/
theorem new_shape_quota_witness :
    (demo_on_new_shape (constEnv true true 1 0) (quotaState 3 2 5)).demo.demo_center_drop_active
      = true ∧
    (demo_on_new_shape (constEnv true true 1 0) (quotaState 3 2 4)).demo.demo_center_drop_active
      = false :=
  ⟨by
    have h := (new_shape_quota (constEnv true true 1 0) (quotaState 3 2 5) rfl).1 (by decide)
    rw [h.1]; exact (demo_reset_cycle_fields _ _).2.1,
   ((new_shape_quota (constEnv true true 1 0) (quotaState 3 2 4) rfl).2.1 (by decide)).2.2.1⟩

/-- Counterexample for C7 as stated: base 65535, target 1, lines cleared 65535.
The counter has not reached `65535 + 1`, yet the 16-bit sum is 0 and the round
is reset instead of the planner being invoked. -/
theorem quota_wraparound_counterexample :
    (quotaState 65535 1 65535).demo.demo_center_drop_active = false ∧
    ¬ ((quotaState 65535 1 65535).demo.demo_lines_base +
        (quotaState 65535 1 65535).demo.demo_clear_target
        ≤ (quotaState 65535 1 65535).game.lines_cleared) ∧
    (demo_on_new_shape (constEnv true true 1 0) (quotaState 65535 1 65535)).log =
      [ExtCall.reset_game_state, ExtCall.update_static_buffer, ExtCall.random 0 2,
       ExtCall.spawn_new_shape] ∧
    (demo_on_new_shape (constEnv true true 1 0) (quotaState 65535 1 65535)).demo.demo_center_drop_active
      = true := by
  decide

/-- C8: the center-drop flag over a round.  (1) `demo_reset_cycle` sets it.
(2) A new-piece event that finds it set clears it, re-snapshots the lines-cleared
base and runs the planner; its only external calls are the planner's four draws
of `random`, so no reset is performed, whether or not the clear quota is met.
(3) No operation sets it again without a round reset: whenever one of the
operations of the controller leaves the flag true, it was true before or the
operation called `reset_game_state`, which only `demo_reset_cycle` does.
(4) Hence, in every run of ticks of an active session that starts with the flag
set and performs no round reset, the flag is true exactly up to the first tick
that detects a new piece, and false from that tick on: it is true for the first
piece of the round and for no other. -/
theorem center_drop_exclusive (env : Env) (other : Nat → Game → Game) (s : State)
    (a b : Bool) (n : Nat) :
    (demo_reset_cycle env s).demo.demo_center_drop_active = true ∧
    (s.demo.demo_center_drop_active = true →
      demo_on_new_shape env s = demo_plan_random_movement env
        { s with demo := { s.demo with
            demo_center_drop_active := false, demo_lines_base := s.game.lines_cleared } } ∧
      (demo_on_new_shape env s).demo.demo_center_drop_active = false ∧
      (demo_on_new_shape env s).demo.demo_lines_base = s.game.lines_cleared ∧
      (demo_on_new_shape env s).log = s.log ++ [ExtCall.random 0 2,
        ExtCall.random 0 ((s.game.PIT_WIDTH : Int) / 2 + 1), ExtCall.random 0 2,
        ExtCall.random 0 ((s.game.PIT_DEPTH : Int) / 2 + 1)]) ∧
    (∀ t, t ∈ [demo_tick env s, demo_start env s, demo_stop s,
               (demo_idle_update env a b s).2, demo_notify_start_screen_input s,
               demo_on_new_shape env s, demo_plan_random_movement env s,
               demo_execute_movement_step env s] →
      t.demo.demo_center_drop_active = true →
      s.demo.demo_center_drop_active = true ∨ resets s < resets t) ∧
    (s.demo.demo_center_drop_active = true →
      (∀ k, k < n → (tick_calls env other s k).demo.demo_mode = true) →
      (∀ k, k ≤ n → resets (tick_calls env other s k) = resets s) →
      ∀ k, k ≤ n →
        ((tick_calls env other s k).demo.demo_center_drop_active = true ↔
          ∀ i, i < k → new_piece_at env other s i = false)) := by
  refine ⟨(demo_reset_cycle_fields env s).2.1, ?_, ?_, ?_⟩
  · intro h
    have he := on_new_shape_center_drop env s h
    obtain ⟨h1, h2, _⟩ := demo_plan_random_movement_fields env
      { s with demo := { s.demo with
          demo_center_drop_active := false, demo_lines_base := s.game.lines_cleared } }
    rw [he]
    exact ⟨rfl, h1, h2, demo_plan_random_movement_log env _⟩
  · intro t ht hflag
    simp only [List.mem_cons, List.mem_singleton, List.not_mem_nil, or_false] at ht
    rcases ht with rfl | rfl | rfl | rfl | rfl | rfl | rfl | rfl
    · exact (flagStep_tick env s).2 hflag
    · exact (flagStep_start env s).2 hflag
    · exact (flagStep_stop s).2 hflag
    · exact (flagStep_idle_update env a b s).2 hflag
    · exact (flagStep_notify s).2 hflag
    · exact (flagStep_on_new_shape env s).2 hflag
    · exact (flagStep_plan env s).2 hflag
    · exact (flagStep_exec env s).2 hflag
  · intro hflag hactive hround
    exact center_drop_round env other s n hflag hactive hround

/-- Witness for C8: a round started by a reset; the first piece lands before the
third tick.  The flag is set after tick 2 and clear after ticks 3 and 4. -/
theorem center_drop_exclusive_witness :
    (tick_calls (constEnv true false 0 0) sampleOther
      (demo_reset_cycle (constEnv true false 0 0) (planState 0 0 false)) 2).demo.demo_center_drop_active
      = true ∧
    (tick_calls (constEnv true false 0 0) sampleOther
      (demo_reset_cycle (constEnv true false 0 0) (planState 0 0 false)) 3).demo.demo_center_drop_active
      = false ∧
    (tick_calls (constEnv true false 0 0) sampleOther
      (demo_reset_cycle (constEnv true false 0 0) (planState 0 0 false)) 4).demo.demo_center_drop_active
      = false :=
  have h := (center_drop_exclusive (constEnv true false 0 0) sampleOther
    (demo_reset_cycle (constEnv true false 0 0) (planState 0 0 false)) true false 4).2.2.2
    (by decide) (by decide) (by decide)
  ⟨(h 2 (by decide)).2 (by decide),
   by simpa using mt (h 3 (by decide)).1 (by decide),
   by simpa using mt (h 4 (by decide)).1 (by decide)⟩

/-! ## Bottom-level fill: lemmas -/

theorem fill_cell_pit (bz cx cy y x : Nat) (g : Game) (z1 y1 x1 : Nat) :
    (fill_cell bz cx cy y x g).pit z1 y1 x1 =
      if z1 = bz ∧ y1 = y ∧ x1 = x then (if x = cx ∧ y = cy then 0 else 1)
      else g.pit z1 y1 x1 := by
  unfold fill_cell store3
  split_ifs <;> simp_all

theorem fill_row_succ (bz cx cy n y : Nat) (g : Game) :
    fill_row bz cx cy (n + 1) y g = fill_cell bz cx cy y n (fill_row bz cx cy n y g) := by
  simp [fill_row, List.range_succ, List.foldl_append]

/-- The pit after the inner loop has run over `x = 0 .. n-1` in row `y`. -/
theorem fill_row_pit (bz cx cy y : Nat) (g : Game) (n : Nat) (z1 y1 x1 : Nat) :
    (fill_row bz cx cy n y g).pit z1 y1 x1 =
      if z1 = bz ∧ y1 = y ∧ x1 < n then (if x1 = cx ∧ y1 = cy then 0 else 1)
      else g.pit z1 y1 x1 := by
  induction n with
  | zero => simp [fill_row]
  | succ n ih =>
    rw [fill_row_succ, fill_cell_pit, ih]
    by_cases h1 : z1 = bz <;> by_cases h2 : y1 = y <;> by_cases h3 : x1 = n <;>
      by_cases h4 : x1 < n <;> simp [h1, h2, h3, h4]
    · have h5 : x1 < n + 1 := by omega
      simp [h5]
    · have h5 : ¬ x1 < n + 1 := by omega
      simp [h5]

theorem fill_rows_succ (bz cx cy w m : Nat) (g : Game) :
    (List.range (m + 1)).foldl (fun acc y => fill_row bz cx cy w y acc) g =
      fill_row bz cx cy w m
        ((List.range m).foldl (fun acc y => fill_row bz cx cy w y acc) g) := by
  simp [List.range_succ, List.foldl_append]

/-- The pit after the outer loop has run over `y = 0 .. m-1`. -/
theorem fill_rows_pit (bz cx cy w : Nat) (g : Game) (m : Nat) (z1 y1 x1 : Nat) :
    ((List.range m).foldl (fun acc y => fill_row bz cx cy w y acc) g).pit z1 y1 x1 =
      if z1 = bz ∧ y1 < m ∧ x1 < w then (if x1 = cx ∧ y1 = cy then 0 else 1)
      else g.pit z1 y1 x1 := by
  induction m with
  | zero => simp
  | succ m ih =>
    rw [fill_rows_succ, fill_row_pit, ih]
    by_cases h1 : z1 = bz <;> by_cases h2 : y1 = m <;> by_cases h3 : x1 < w <;>
      by_cases h4 : y1 < m <;> simp [h1, h2, h3, h4]
    all_goals first
      | omega
      | (have h5 : y1 < m + 1 := by omega
         simp [h5])
      | (have h5 : ¬ y1 < m + 1 := by omega
         simp [h5])

/-- The pit after `demo_fill_bottom_level`, cell by cell. -/
theorem demo_fill_bottom_level_pit (g : Game) (z1 y1 x1 : Nat) :
    (demo_fill_bottom_level g).pit z1 y1 x1 =
      if z1 = u8 ((g.PIT_HEIGHT : Int) - 1) ∧ y1 < g.PIT_DEPTH ∧ x1 < g.PIT_WIDTH then
        (if x1 = u8 ((g.PIT_WIDTH : Int) / 2) ∧ y1 = u8 ((g.PIT_DEPTH : Int) / 2) then 0 else 1)
      else g.pit z1 y1 x1 := by
  unfold demo_fill_bottom_level
  exact fill_rows_pit _ _ _ _ g g.PIT_DEPTH z1 y1 x1


theorem demo_reset_cycle_pit (env : Env) (s : State)
    (hU : ∀ g, (env.update_static_buffer g).pit = g.pit)
    (hS : ∀ g, (env.spawn_new_shape g).pit = g.pit) :
    (demo_reset_cycle env s).game.pit =
      (demo_fill_bottom_level (env.reset_game_state s.game)).pit := by
  simp [demo_reset_cycle, call_spawn_new_shape, call_random, call_update_static_buffer,
    call_reset_game_state, logCall, hU, hS]

/-! ## Bottom-level fill -/

/-- C9: after `demo_fill_bottom_level`, whatever the pit `g` contained before, for
every `x < PIT_WIDTH` and `y < PIT_DEPTH` the cell `pit[PIT_HEIGHT-1][y][x]` is 0
if `(x, y) = (PIT_WIDTH/2, PIT_DEPTH/2)` and 1 otherwise (the dimensions being
`uint8_t` quantities, the height at least 1).  In `demo_reset_cycle` the fill is
applied to the game left by `reset_game_state`; when the two external calls
that follow it leave the pit alone, the bottom level is so filled after the
whole round reset. -/
theorem bottom_level_fill (env : Env) (s : State) (g : Game) (x y : Nat)
    (hx : x < g.PIT_WIDTH) (hy : y < g.PIT_DEPTH)
    (hW : g.PIT_WIDTH < 256) (hD : g.PIT_DEPTH < 256)
    (hH : 1 ≤ g.PIT_HEIGHT) (hH8 : g.PIT_HEIGHT < 256) :
    (demo_fill_bottom_level g).pit (g.PIT_HEIGHT - 1) y x =
      (if (x, y) = (g.PIT_WIDTH / 2, g.PIT_DEPTH / 2) then 0 else 1) ∧
    (g = env.reset_game_state s.game →
      (∀ g1, (env.update_static_buffer g1).pit = g1.pit) →
      (∀ g1, (env.spawn_new_shape g1).pit = g1.pit) →
      (demo_reset_cycle env s).game.pit (g.PIT_HEIGHT - 1) y x =
        (if (x, y) = (g.PIT_WIDTH / 2, g.PIT_DEPTH / 2) then 0 else 1)) := by
  have hz : u8 ((g.PIT_HEIGHT : Int) - 1) = g.PIT_HEIGHT - 1 := by unfold u8; omega
  have hcx : u8 ((g.PIT_WIDTH : Int) / 2) = g.PIT_WIDTH / 2 := by unfold u8; omega
  have hcy : u8 ((g.PIT_DEPTH : Int) / 2) = g.PIT_DEPTH / 2 := by unfold u8; omega
  have hfill : (demo_fill_bottom_level g).pit (g.PIT_HEIGHT - 1) y x =
      (if (x, y) = (g.PIT_WIDTH / 2, g.PIT_DEPTH / 2) then 0 else 1) := by
    rw [demo_fill_bottom_level_pit, hz, hcx, hcy]
    simp [hx, hy]
  refine ⟨hfill, ?_⟩
  intro hg hU hS
  rw [demo_reset_cycle_pit env s hU hS, ← hg]
  exact hfill

/-- Witness for C9: the 5 x 5 x 10 sample pit; the center cell (2, 2) of level 9
is empty and the corner cell (0, 0) is occupied after a round reset. -/
theorem bottom_level_fill_witness :
    (demo_reset_cycle (constEnv true true 0 0) initState).game.pit 9 2 2 = 0 ∧
    (demo_reset_cycle (constEnv true true 0 0) initState).game.pit 9 0 0 = 1 :=
  ⟨(bottom_level_fill (constEnv true true 0 0) initState
      ((constEnv true true 0 0).reset_game_state initState.game) 2 2
      (by decide) (by decide) (by decide) (by decide) (by decide) (by decide)).2
      rfl (fun _ => rfl) (fun _ => rfl),
   (bottom_level_fill (constEnv true true 0 0) initState
      ((constEnv true true 0 0).reset_game_state initState.game) 0 0
      (by decide) (by decide) (by decide) (by decide) (by decide) (by decide)).2
      rfl (fun _ => rfl) (fun _ => rfl)⟩

/-! ## Forced drop -/

/-- The movement step of a tick leaves the per-piece timer alone. -/
theorem tick_move_timer (env : Env) (s : State) :
    (demo_tick_move env s).demo.demo_timer = s.demo.demo_timer := by
  obtain ⟨_, _, ht, _⟩ := exec_demo_frame env (call_random env 8 50 s).2
  simp only [demo_tick_move]
  split_ifs <;> simp_all [call_random_demo]

/-- C10 (amended): in a tick of an active session that is not near-full, is in
state `PLAYING` after the new-piece dispatch and is not handling the center-drop
piece, if the plan is complete after the movement step and the incremented
timer is greater than 60 (at least 61), the tick forces `FAST_DROP` as its last
external call and resets the timer to 0. -/
theorem fast_drop_after_plan (env : Env) (s : State)
    (hactive : s.demo.demo_mode = true)
    (hnotfull : (demo_should_reset env s).1 = false)
    (hplaying : (demo_tick_dispatch env (demo_should_reset env s).2).game.state_current
      = GameState.STATE_PLAYING)
    (hflag : (demo_tick_dispatch env (demo_should_reset env s).2).demo.demo_center_drop_active
      = false)
    (hdone : (demo_tick_move env (demo_tick_timer
      (demo_tick_dispatch env (demo_should_reset env s).2))).demo.demo_movement_done = true)
    (htimer : 60 < (demo_tick_timer
      (demo_tick_dispatch env (demo_should_reset env s).2)).demo.demo_timer) :
    demo_tick env s = force_fast_drop (demo_tick_move env (demo_tick_timer
      (demo_tick_dispatch env (demo_should_reset env s).2))) ∧
    (demo_tick env s).game.state_current = GameState.STATE_FAST_DROP ∧
    (demo_tick env s).demo.demo_timer = 0 ∧
    (demo_tick env s).log.getLast? = some (ExtCall.change_state GameState.STATE_FAST_DROP) := by
  have hflag2 : (demo_tick_timer (demo_tick_dispatch env
      (demo_should_reset env s).2)).demo.demo_center_drop_active = false := hflag
  have htimer2 : 60 < (demo_tick_move env (demo_tick_timer
      (demo_tick_dispatch env (demo_should_reset env s).2))).demo.demo_timer := by
    rw [tick_move_timer]; exact htimer
  have htick : demo_tick env s = force_fast_drop (demo_tick_move env (demo_tick_timer
      (demo_tick_dispatch env (demo_should_reset env s).2))) := by
    simp [demo_tick, hactive, hnotfull, hplaying, demo_tick_playing, hflag2, hdone, htimer2]
  rw [htick]
  refine ⟨rfl, ?_, ?_, ?_⟩ <;> simp [force_fast_drop, change_state, logCall]

/-- Witness for C10: plan complete, timer 60 before the tick, 61 after its
increment. -/
theorem fast_drop_after_plan_witness :
    (demo_tick (constEnv true false 9 0) (doneState 60)).game.state_current
      = GameState.STATE_FAST_DROP ∧
    (demo_tick (constEnv true false 9 0) (doneState 60)).demo.demo_timer = 0 :=
  have h := fast_drop_after_plan (constEnv true false 9 0) (doneState 60)
    (by decide) (by decide) (by decide) (by decide) (by decide) (by decide)
  ⟨h.2.1, h.2.2.1⟩

/-- Counterexample for C10 as stated: plan complete, timer 59 before the tick and
60 after its increment; the test is `demo_timer > 60`, so the tick forces no
fast drop: the state stays `PLAYING`, the timer stays 60 and the only external
calls are the occupancy query and the draw of the pacing modulus. -/
theorem fast_drop_at_sixty_counterexample :
    (doneState 59).demo.demo_mode = true ∧
    (demo_should_reset (constEnv true false 9 0) (doneState 59)).1 = false ∧
    (doneState 59).game.state_current = GameState.STATE_PLAYING ∧
    (doneState 59).demo.demo_center_drop_active = false ∧
    (doneState 59).demo.demo_movement_done = true ∧
    (doneState 59).game.cubes_played = (doneState 59).demo.demo_last_cubes_played ∧
    60 ≤ (demo_tick_timer (doneState 59)).demo.demo_timer ∧
    (demo_tick (constEnv true false 9 0) (doneState 59)).game.state_current
      = GameState.STATE_PLAYING ∧
    (demo_tick (constEnv true false 9 0) (doneState 59)).demo.demo_timer = 60 ∧
    (demo_tick (constEnv true false 9 0) (doneState 59)).demo.demo_movement_done = true ∧
    (demo_tick (constEnv true false 9 0) (doneState 59)).log =
      [ExtCall.count_occupied_levels, ExtCall.random 8 50] := by
  decide

/-! ## Center-drop handling and state gate -/

theorem tick_dispatched_same_piece (env : Env) (s : State)
    (hc : s.game.cubes_played = s.demo.demo_last_cubes_played) :
    demo_tick_dispatched env s = logCall ExtCall.count_occupied_levels s := by
  simp [demo_tick_dispatched, demo_tick_dispatch, demo_should_reset,
    call_count_occupied_levels, logCall, hc]

/-- C11: in a tick of an active, not-near-full session that is in `PLAYING` with
the center-drop flag set after the new-piece dispatch, the piece position, the
target angles and the step counters are those left by the dispatch (those at
entry when no new piece was detected).  When the incremented timer exceeds 20
the tick is `change_state(STATE_FAST_DROP); demo_timer = 0` and nothing else;
otherwise it is the timer increment and nothing else.  In neither case is there
a call of `random`, `is_position_valid` or `try_wall_kick`: the movement
executor is not invoked. -/
theorem center_drop_tick (env : Env) (s : State)
    (hactive : s.demo.demo_mode = true)
    (hnotfull : (demo_should_reset env s).1 = false)
    (hplaying : (demo_tick_dispatched env s).game.state_current = GameState.STATE_PLAYING)
    (hflag : (demo_tick_dispatched env s).demo.demo_center_drop_active = true) :
    (demo_tick env s).game.shape_pos_x = (demo_tick_dispatched env s).game.shape_pos_x ∧
    (demo_tick env s).game.shape_pos_y = (demo_tick_dispatched env s).game.shape_pos_y ∧
    (demo_tick env s).game.shape_pos_z = (demo_tick_dispatched env s).game.shape_pos_z ∧
    (demo_tick env s).game.targetX = (demo_tick_dispatched env s).game.targetX ∧
    (demo_tick env s).game.targetY = (demo_tick_dispatched env s).game.targetY ∧
    (demo_tick env s).game.targetZ = (demo_tick_dispatched env s).game.targetZ ∧
    (demo_tick env s).demo.demo_steps_x = (demo_tick_dispatched env s).demo.demo_steps_x ∧
    (demo_tick env s).demo.demo_steps_y = (demo_tick_dispatched env s).demo.demo_steps_y ∧
    (20 < (demo_tick_timer (demo_tick_dispatched env s)).demo.demo_timer →
      demo_tick env s = force_fast_drop (demo_tick_timer (demo_tick_dispatched env s)) ∧
      (demo_tick env s).game.state_current = GameState.STATE_FAST_DROP ∧
      (demo_tick env s).demo.demo_timer = 0 ∧
      (demo_tick env s).log = (demo_tick_dispatched env s).log ++
        [ExtCall.change_state GameState.STATE_FAST_DROP]) ∧
    (¬ 20 < (demo_tick_timer (demo_tick_dispatched env s)).demo.demo_timer →
      demo_tick env s = demo_tick_timer (demo_tick_dispatched env s) ∧
      (demo_tick env s).game.state_current = GameState.STATE_PLAYING ∧
      (demo_tick env s).demo.demo_timer =
        u16 (((demo_tick_dispatched env s).demo.demo_timer : Int) + 1) ∧
      (demo_tick env s).log = (demo_tick_dispatched env s).log) ∧
    (s.game.cubes_played = s.demo.demo_last_cubes_played →
      (demo_tick_dispatched env s).game = s.game ∧
      (demo_tick_dispatched env s).demo = s.demo ∧
      (demo_tick_dispatched env s).log = s.log ++ [ExtCall.count_occupied_levels]) := by
  have hflag2 : (demo_tick_timer (demo_tick_dispatched env s)).demo.demo_center_drop_active
      = true := hflag
  have htick : demo_tick env s =
      if 20 < (demo_tick_timer (demo_tick_dispatched env s)).demo.demo_timer
      then force_fast_drop (demo_tick_timer (demo_tick_dispatched env s))
      else demo_tick_timer (demo_tick_dispatched env s) := by
    unfold demo_tick_dispatched at *
    simp [demo_tick, hactive, hnotfull, hplaying, demo_tick_playing, hflag2]
  have hframe : (demo_tick env s).game.shape_pos_x = (demo_tick_dispatched env s).game.shape_pos_x ∧
      (demo_tick env s).game.shape_pos_y = (demo_tick_dispatched env s).game.shape_pos_y ∧
      (demo_tick env s).game.shape_pos_z = (demo_tick_dispatched env s).game.shape_pos_z ∧
      (demo_tick env s).game.targetX = (demo_tick_dispatched env s).game.targetX ∧
      (demo_tick env s).game.targetY = (demo_tick_dispatched env s).game.targetY ∧
      (demo_tick env s).game.targetZ = (demo_tick_dispatched env s).game.targetZ ∧
      (demo_tick env s).demo.demo_steps_x = (demo_tick_dispatched env s).demo.demo_steps_x ∧
      (demo_tick env s).demo.demo_steps_y = (demo_tick_dispatched env s).demo.demo_steps_y := by
    rw [htick]
    split_ifs <;> exact ⟨rfl, rfl, rfl, rfl, rfl, rfl, rfl, rfl⟩
  obtain ⟨f1, f2, f3, f4, f5, f6, f7, f8⟩ := hframe
  refine ⟨f1, f2, f3, f4, f5, f6, f7, f8, ?_, ?_, ?_⟩
  · intro h20
    rw [htick, if_pos h20]
    exact ⟨rfl, rfl, rfl, rfl⟩
  · intro h20
    rw [htick, if_neg h20]
    exact ⟨rfl, hplaying, rfl, rfl⟩
  · intro hc
    rw [tick_dispatched_same_piece env s hc]
    exact ⟨rfl, rfl, rfl⟩

/-- Witness for C11: timers 20 and 19 before the tick. -/
theorem center_drop_tick_witness :
    (demo_tick (constEnv true true 1 0) (centerState 20)).game.state_current
      = GameState.STATE_FAST_DROP ∧
    (demo_tick (constEnv true true 1 0) (centerState 20)).demo.demo_timer = 0 ∧
    (demo_tick (constEnv true true 1 0) (centerState 19)).game.state_current
      = GameState.STATE_PLAYING ∧
    (demo_tick (constEnv true true 1 0) (centerState 19)).demo.demo_timer = 20 :=
  have h := center_drop_tick (constEnv true true 1 0) (centerState 20)
    (by decide) (by decide) (by decide) (by decide)
  have k := center_drop_tick (constEnv true true 1 0) (centerState 19)
    (by decide) (by decide) (by decide) (by decide)
  ⟨(h.2.2.2.2.2.2.2.2.1 (by decide)).2.1, (h.2.2.2.2.2.2.2.2.1 (by decide)).2.2.1,
   (k.2.2.2.2.2.2.2.2.2.1 (by decide)).2.1, (k.2.2.2.2.2.2.2.2.2.1 (by decide)).2.2.1⟩

/-- An inactive session is a fixed point of `demo_tick`, whatever the rest of
the program does between the ticks. -/
theorem tick_calls_inactive (env : Env) (other : Nat → Game → Game) (s0 : State)
    (h : s0.demo.demo_mode = false) (n : Nat) :
    (tick_calls env other s0 n).demo = s0.demo ∧ (tick_calls env other s0 n).log = s0.log := by
  induction n with
  | zero => exact ⟨rfl, rfl⟩
  | succ n ih =>
    have hm : (between (other n) (tick_calls env other s0 n)).demo.demo_mode = false := by
      simp [between, ih.1, h]
    have ht : demo_tick env (between (other n) (tick_calls env other s0 n)) =
        between (other n) (tick_calls env other s0 n) := by
      simp [demo_tick, hm]
    rw [tick_calls_succ, ht]
    exact ⟨ih.1, ih.2⟩

/-- C12: in an active session that is not near-full and whose pieces-played
counter equals the stored snapshot, a tick made while the game state is not
`PLAYING` changes nothing: the statics (timer and movement plan included) and
the game's globals (piece position and target angles included) are as before,
and the only external call is the occupancy query, so no state transition is
requested. -/
theorem tick_gated_by_state (env : Env) (s : State)
    (hactive : s.demo.demo_mode = true)
    (hnotfull : (demo_should_reset env s).1 = false)
    (hsame : s.game.cubes_played = s.demo.demo_last_cubes_played)
    (hstate : s.game.state_current ≠ GameState.STATE_PLAYING) :
    demo_tick env s = logCall ExtCall.count_occupied_levels s ∧
    (demo_tick env s).demo = s.demo ∧
    (demo_tick env s).game = s.game ∧
    (demo_tick env s).log = s.log ++ [ExtCall.count_occupied_levels] := by
  have hd := tick_dispatched_same_piece env s hsame
  unfold demo_tick_dispatched at hd
  have hst : (logCall ExtCall.count_occupied_levels s).game.state_current
      ≠ GameState.STATE_PLAYING := hstate
  have htick : demo_tick env s = logCall ExtCall.count_occupied_levels s := by
    simp [demo_tick, hactive, hnotfull, hd, hst]
  rw [htick]
  exact ⟨rfl, rfl, rfl, rfl⟩

/-- Witness for C12: a tick during a rotation animation. -/
theorem tick_gated_by_state_witness :
    (demo_tick (constEnv true true 1 0) (animatingState 2 1)).demo = (animatingState 2 1).demo ∧
    (demo_tick (constEnv true true 1 0) (animatingState 2 1)).log
      = [ExtCall.count_occupied_levels] :=
  have h := tick_gated_by_state (constEnv true true 1 0) (animatingState 2 1)
    (by decide) (by decide) (by decide) (by decide)
  ⟨h.2.1, h.2.2.2⟩

/-! ## Start and stop -/

/-- C13: the guarded operations are no-ops outside their mode.  On an inactive
session `demo_tick` and `demo_stop` return the state they were given, and so
does `demo_start` on an active session: statics, game globals and call log are
unchanged, hence no external call is made. -/
theorem guarded_operations_noop (env : Env) (s : State) :
    (s.demo.demo_mode = false → demo_tick env s = s ∧ demo_stop s = s) ∧
    (s.demo.demo_mode = true → demo_start env s = s) := by
  constructor
  · intro h
    exact ⟨by simp [demo_tick, h], by simp [demo_stop, h]⟩
  · intro h
    simp [demo_start, h]

/-- Witness for C13: the start-up state is inactive, the sample plan state is
active. -/
theorem guarded_operations_noop_witness :
    (demo_tick (constEnv true true 1 8) initState).log = [] ∧
    (demo_stop initState).game.state_current = GameState.STATE_PLAYING ∧
    (demo_start (constEnv true true 1 8) (planState 2 1 false)).log = [] :=
  have h := (guarded_operations_noop (constEnv true true 1 8) initState).1 rfl
  have k := (guarded_operations_noop (constEnv true true 1 8) (planState 2 1 false)).2 rfl
  ⟨by rw [h.1]; rfl, by rw [h.2]; rfl, by rw [k]; rfl⟩

/-- C14: on an active session `demo_stop` takes effect at once: the session is
inactive, the game state is the start screen (the only external call is
`change_state(STATE_START_SCREEN)`), both redraw flags are set and the idle
counter is 0.  The movement plan is left in the statics but is never executed:
every following `demo_tick` is a no-op, whatever the rest of the program does
in between. -/
theorem stop_takes_effect (env : Env) (other : Nat → Game → Game) (s : State)
    (hactive : s.demo.demo_mode = true) :
    demo_is_active (demo_stop s) = false ∧
    (demo_stop s).game.state_current = GameState.STATE_START_SCREEN ∧
    (demo_stop s).game.full_redraw_pending = true ∧
    (demo_stop s).game.need_static_redraw = true ∧
    (demo_stop s).demo.start_screen_idle_frames = 0 ∧
    (demo_stop s).log = s.log ++ [ExtCall.change_state GameState.STATE_START_SCREEN] ∧
    (∀ g, demo_tick env { demo_stop s with game := g } = { demo_stop s with game := g }) ∧
    (∀ n, (tick_calls env other (demo_stop s) n).demo = (demo_stop s).demo ∧
          (tick_calls env other (demo_stop s) n).log = (demo_stop s).log) := by
  have hm : (demo_stop s).demo.demo_mode = false := by
    simp [demo_stop, hactive, change_state, logCall]
  refine ⟨hm, ?_, ?_, ?_, ?_, ?_, ?_, ?_⟩
  · simp [demo_stop, hactive, change_state, logCall]
  · simp [demo_stop, hactive, change_state, logCall]
  · simp [demo_stop, hactive, change_state, logCall]
  · simp [demo_stop, hactive, change_state, logCall]
  · simp [demo_stop, hactive, change_state, logCall]
  · intro g
    simp [demo_tick, hm]
  · intro n
    exact tick_calls_inactive env other (demo_stop s) hm n

/-- Witness for C14: stopping the sample plan (2, 1); three ticks later no step
has been taken. -/
theorem stop_takes_effect_witness :
    demo_is_active (demo_stop (planState 2 1 false)) = false ∧
    (demo_stop (planState 2 1 false)).game.state_current = GameState.STATE_START_SCREEN ∧
    (tick_calls (constEnv true true 0 0) sampleOther (demo_stop (planState 2 1 false))
      3).demo.demo_steps_x = 2 :=
  have h := stop_takes_effect (constEnv true true 0 0) sampleOther (planState 2 1 false) rfl
  ⟨h.1, h.2.1, by rw [(h.2.2.2.2.2.2.2 3).1]; rfl⟩

theorem demo_reset_cycle_snapshots (env : Env) (s : State) :
    (demo_reset_cycle env s).demo.demo_lines_base
      = (reset_spawn_entry env s.game).lines_cleared ∧
    (demo_reset_cycle env s).demo.demo_last_cubes_played
      = (demo_reset_cycle env s).game.cubes_played ∧
    (demo_reset_cycle env s).demo.demo_clear_target =
      u8 (1 + (u8 (env.random (env.update_static_buffer
        (demo_fill_bottom_level (env.reset_game_state s.game))) 0 2).1 : Int)) ∧
    (demo_reset_cycle env s).demo.start_screen_idle_frames = s.demo.start_screen_idle_frames := by
  simp [demo_reset_cycle, reset_spawn_entry, call_spawn_new_shape, call_random,
    call_update_static_buffer, call_reset_game_state, logCall]

theorem clear_target_range (r : Int) (h : r = 0 ∨ r = 1) :
    u8 (1 + (u8 r : Int)) = 1 ∨ u8 (1 + (u8 r : Int)) = 2 := by
  rcases h with rfl | rfl
  · left; decide
  · right; decide

/-- The result of `demo_start` on an inactive session, in terms of the round
reset it performs. -/
theorem demo_start_unfold (env : Env) (s : State) (hinactive : s.demo.demo_mode = false) :
    demo_start env s =
      { change_state GameState.STATE_PLAYING (demo_reset_cycle env (demo_start_entry env s)) with
        demo := { (demo_reset_cycle env (demo_start_entry env s)).demo with
          start_screen_idle_frames := 0 } } ∧
    (demo_start env s).demo = { (demo_reset_cycle env (demo_start_entry env s)).demo with
      start_screen_idle_frames := 0 } ∧
    (demo_start env s).game = { (demo_reset_cycle env (demo_start_entry env s)).game with
      state_current := GameState.STATE_PLAYING } ∧
    (demo_start env s).log = (demo_reset_cycle env (demo_start_entry env s)).log ++
      [ExtCall.change_state GameState.STATE_PLAYING] := by
  have h : demo_start env s =
      { change_state GameState.STATE_PLAYING (demo_reset_cycle env (demo_start_entry env s)) with
        demo := { (demo_reset_cycle env (demo_start_entry env s)).demo with
          start_screen_idle_frames := 0 } } := by
    unfold demo_start
    rw [if_neg (by simp [hinactive])]
    rfl
  rw [h]
  exact ⟨rfl, rfl, rfl, rfl⟩

theorem targetStep_refl (env : Env) (s : State) : TargetStep env s s :=
  ⟨Eq.refl _, Eq.refl _, Or.inl (Eq.refl _)⟩

theorem targetStep_trans {env : Env} {s t u : State} (h1 : TargetStep env s t)
    (h2 : TargetStep env t u) : TargetStep env s u := by
  refine ⟨h2.1.trans h1.1, h2.2.1.trans h1.2.1, ?_⟩
  rcases h2.2.2 with h | h
  · rcases h1.2.2 with k | k
    · exact Or.inl (h.trans k)
    · exact Or.inr (by obtain ⟨g, hg⟩ := k; exact ⟨g, h.trans hg⟩)
  · exact Or.inr h

/-- A step that keeps all three fields. -/
theorem targetStep_of_eq {env : Env} {s t : State}
    (h1 : t.demo.demo_mode = s.demo.demo_mode)
    (h2 : t.demo.start_screen_idle_frames = s.demo.start_screen_idle_frames)
    (h3 : t.demo.demo_clear_target = s.demo.demo_clear_target) : TargetStep env s t :=
  ⟨h1, h2, Or.inl h3⟩

theorem targetStep_reset_cycle (env : Env) (s : State) :
    TargetStep env s (demo_reset_cycle env s) := by
  obtain ⟨_, _, n3, n4⟩ := demo_reset_cycle_snapshots env s
  exact ⟨demo_reset_cycle_demo_mode env s, n4, Or.inr ⟨_, n3⟩⟩

theorem targetStep_plan (env : Env) (s : State) :
    TargetStep env s (demo_plan_random_movement env s) := by
  apply targetStep_of_eq <;> simp [demo_plan_random_movement, call_random, logCall]

theorem targetStep_on_new_shape (env : Env) (s : State) :
    TargetStep env s (demo_on_new_shape env s) := by
  unfold demo_on_new_shape
  split_ifs
  · refine targetStep_trans ?_ (targetStep_plan env _)
    apply targetStep_of_eq <;> rfl
  · exact targetStep_reset_cycle env s
  · exact targetStep_plan env s

theorem targetStep_tick_playing (env : Env) (s : State) :
    TargetStep env s (demo_tick_playing env s) := by
  obtain ⟨hm, hi, _, _, _, ht, _⟩ :=
    exec_demo_frame env (call_random env 8 50 (demo_tick_timer s)).2
  apply targetStep_of_eq <;>
  · simp only [demo_tick_playing, demo_tick_move, force_fast_drop, change_state, logCall]
    split_ifs <;> simp_all [call_random_demo, demo_tick_timer]

theorem targetStep_tick (env : Env) (s : State) : TargetStep env s (demo_tick env s) := by
  have hlog : TargetStep env s (demo_should_reset env s).2 := by
    apply targetStep_of_eq <;> rfl
  have hdisp : ∀ u, TargetStep env u (demo_tick_dispatch env u) := by
    intro u
    unfold demo_tick_dispatch
    split_ifs
    · refine targetStep_trans ?_ (targetStep_on_new_shape env _)
      apply targetStep_of_eq <;> rfl
    · exact targetStep_refl env u
  unfold demo_tick
  simp only []
  split_ifs
  · exact targetStep_refl env s
  · exact targetStep_trans hlog (targetStep_reset_cycle env _)
  · exact targetStep_trans hlog (hdisp _)
  · exact targetStep_trans hlog (targetStep_trans (hdisp _) (targetStep_tick_playing env _))

/-- What `demo_start` leaves in the three fields. -/
theorem demo_start_fields (env : Env) (s : State) :
    (s.demo.demo_mode = true → demo_start env s = s) ∧
    (s.demo.demo_mode = false →
      (demo_start env s).demo.demo_mode = true ∧
      (demo_start env s).demo.start_screen_idle_frames = 0 ∧
      ∃ g, (demo_start env s).demo.demo_clear_target = u8 (1 + (u8 (env.random g 0 2).1 : Int))) := by
  constructor
  · intro h; simp [demo_start, h]
  · intro h
    obtain ⟨_, hdemo, _, _⟩ := demo_start_unfold env s h
    obtain ⟨_, _, n3, _⟩ := demo_reset_cycle_snapshots env (demo_start_entry env s)
    refine ⟨demo_start_demo_mode env s, by rw [hdemo], ?_⟩
    refine ⟨env.update_static_buffer
      (demo_fill_bottom_level (env.reset_game_state (demo_start_entry env s).game)), ?_⟩
    rw [hdemo]
    exact n3

/-- The invariant behind C16 and C20: the idle counter is below the start delay,
and while the session is active the clear target is a value drawn by a round
reset. -/
theorem run_ops_invariant (env : Env) (g : Game) (ops : List Op) :
    (run_ops env ops (startup g)).demo.start_screen_idle_frames < 600 ∧
    ((run_ops env ops (startup g)).demo.demo_mode = true →
      ∃ g1, (run_ops env ops (startup g)).demo.demo_clear_target
        = u8 (1 + (u8 (env.random g1 0 2).1 : Int))) := by
  induction ops using List.reverseRecOn with
  | nil =>
    refine ⟨?_, fun h => ?_⟩
    · show (0 : Nat) < 600
      omega
    · exact Bool.noConfusion (show false = true from h)
  | append_singleton ops op ih =>
    have hrun : run_ops env (ops ++ [op]) (startup g) =
        apply_op env op (run_ops env ops (startup g)) := by
      simp [run_ops, List.foldl_append]
    rw [hrun]
    generalize run_ops env ops (startup g) = s at ih
    obtain ⟨hidle, htarget⟩ := ih
    cases op with
    | start =>
      obtain ⟨ha, hb⟩ := demo_start_fields env s
      by_cases hm : s.demo.demo_mode = true
      · simp only [apply_op, ha hm]
        exact ⟨hidle, htarget⟩
      · obtain ⟨_, h2, h3⟩ := hb (by simpa using hm)
        simp only [apply_op]
        exact ⟨by rw [h2]; omega, fun _ => h3⟩
    | stop =>
      by_cases hm : s.demo.demo_mode = true
      · refine ⟨?_, fun h => ?_⟩
        · simp [apply_op, demo_stop, hm, change_state, logCall]
        · simp [apply_op, demo_stop, hm, change_state, logCall] at h
      · have : demo_stop s = s := by simp [demo_stop, hm]
        simp only [apply_op, this]
        exact ⟨hidle, htarget⟩
    | tick =>
      obtain ⟨t1, t2, t3⟩ := targetStep_tick env s
      simp only [apply_op]
      refine ⟨by rw [t2]; exact hidle, fun h => ?_⟩
      rcases t3 with k | k
      · rw [k]; exact htarget (by rw [← t1]; exact h)
      · exact k
    | idle_update a b =>
      simp only [apply_op, demo_idle_update]
      split_ifs with h1 h2 h3
      · exact ⟨show (0 : Nat) < 600 by omega, htarget⟩
      · exact ⟨show (0 : Nat) < 600 by omega, htarget⟩
      · refine ⟨show (0 : Nat) < 600 by omega, fun _ => ?_⟩
        have hm : s.demo.demo_mode = false := by
          cases hs : s.demo.demo_mode
          · rfl
          · simp [hs] at h1
        exact ((demo_start_fields env { s with demo := { s.demo with
          start_screen_idle_frames := u16 ((s.demo.start_screen_idle_frames : Int) + 1) } }).2
          hm).2.2
      · refine ⟨?_, htarget⟩
        simp only [DEMO_START_DELAY_FRAMES] at h3
        show u16 ((s.demo.start_screen_idle_frames : Int) + 1) < 600
        omega
    | notify => exact ⟨by simp [apply_op, demo_notify_start_screen_input], htarget⟩
    | other f => exact ⟨hidle, htarget⟩
/-- C16: in every state reached from the start-up state (statics zeroed, session
inactive) by any sequence of calls of `demo_start`, `demo_stop`, `demo_tick`,
`demo_idle_update` and `demo_notify_start_screen_input`, interleaved with
arbitrary changes of the game's globals by the rest of the program, if the
session is active then the clear target is 1 or 2, provided `random(0, 2)`
returns 0 or 1. -/
theorem clear_target_invariant (env : Env) (g : Game) (ops : List Op)
    (hrand : ∀ g1, (env.random g1 0 2).1 = 0 ∨ (env.random g1 0 2).1 = 1)
    (hactive : demo_is_active (run_ops env ops (startup g)) = true) :
    (run_ops env ops (startup g)).demo.demo_clear_target = 1 ∨
    (run_ops env ops (startup g)).demo.demo_clear_target = 2 := by
  obtain ⟨g1, h⟩ := (run_ops_invariant env g ops).2 hactive
  rw [h]
  exact clear_target_range _ (hrand g1)

/-- Witness for C16: the sample run with `random` returning 1 ends active with
clear target 2. -/
theorem clear_target_invariant_witness :
    demo_is_active (run_ops (constEnv true true 1 0) sampleRun (startup sampleGame)) = true ∧
    ((run_ops (constEnv true true 1 0) sampleRun (startup sampleGame)).demo.demo_clear_target = 1 ∨
     (run_ops (constEnv true true 1 0) sampleRun (startup sampleGame)).demo.demo_clear_target = 2) :=
  ⟨by decide,
   clear_target_invariant (constEnv true true 1 0) sampleGame sampleRun (fun _ => Or.inr rfl)
     (by decide)⟩

/-- C20: in every state reached from the start-up state by any sequence of the
public operations (interleaved with arbitrary changes of the game's globals),
the idle counter is below 600, so that its increment never wraps around; and a
call of `demo_idle_update` made while the session is active returns false and
leaves the counter at 0, whatever its arguments. -/
theorem idle_counter_bounded (env : Env) (g : Game) (ops : List Op)
    (is_start_screen key_pressed : Bool) :
    (run_ops env ops (startup g)).demo.start_screen_idle_frames < 600 ∧
    u16 (((run_ops env ops (startup g)).demo.start_screen_idle_frames : Int) + 1) =
      (run_ops env ops (startup g)).demo.start_screen_idle_frames + 1 ∧
    (demo_is_active (run_ops env ops (startup g)) = true →
      (demo_idle_update env is_start_screen key_pressed
        (run_ops env ops (startup g))).1 = false ∧
      (demo_idle_update env is_start_screen key_pressed
        (run_ops env ops (startup g))).2.demo.start_screen_idle_frames = 0) := by
  have h := (run_ops_invariant env g ops).1
  refine ⟨h, by unfold u16; omega, fun hm => ?_⟩
  have hm2 : (run_ops env ops (startup g)).demo.demo_mode = true := hm
  simp [demo_idle_update, hm2]

/-- Witness for C20: the sample run, then an idle update while active. -/
theorem idle_counter_bounded_witness :
    (run_ops (constEnv true true 1 0) sampleRun (startup sampleGame)).demo.start_screen_idle_frames
      < 600 ∧
    (demo_idle_update (constEnv true true 1 0) true false
      (run_ops (constEnv true true 1 0) sampleRun
        (startup sampleGame))).2.demo.start_screen_idle_frames = 0 :=
  have h := idle_counter_bounded (constEnv true true 1 0) sampleGame sampleRun true false
  ⟨h.1, (h.2.2 (by decide)).2⟩

/-! ## Rotation and rejected moves -/

theorem u8_angle (t a : Nat) : u8 ((t : Int) + (u8 (a : Int) : Nat)) = (t + a) % 256 := by
  unfold u8; omega

/-- The translation blocks and the draws of `random` leave the target angles
alone. -/
theorem rotation_entry_targets (env : Env) (s : State) :
    (rotation_entry env s).game.targetX = s.game.targetX ∧
    (rotation_entry env s).game.targetY = s.game.targetY ∧
    (rotation_entry env s).game.targetZ = s.game.targetZ := by
  have hx : (move_x env s).2.game.targetX = s.game.targetX ∧
      (move_x env s).2.game.targetY = s.game.targetY ∧
      (move_x env s).2.game.targetZ = s.game.targetZ := by
    simp only [move_x, call_is_position_valid, logCall]
    split_ifs <;> simp_all
  have hy : ∀ (m : Bool) (u : State), (move_y env m u).2.game.targetX = u.game.targetX ∧
      (move_y env m u).2.game.targetY = u.game.targetY ∧
      (move_y env m u).2.game.targetZ = u.game.targetZ := by
    intro m u
    simp only [move_y, call_is_position_valid, logCall]
    cases m <;> split_ifs <;> simp_all
  obtain ⟨y1, y2, y3⟩ := hy (move_x env s).1 (move_x env s).2
  obtain ⟨x1, x2, x3⟩ := hx
  simp only [rotation_entry, after_translation, call_random]
  exact ⟨y1.trans x1, y2.trans x2, y3.trans x3⟩

/-- The rotation block when its wall kick succeeds, axis by axis. -/
theorem try_rotation_axis (env : Env) (u : State) (h : (try_rotation env u).1 = true) :
    (u8 (call_random env 0 3 u).1 = 0 →
      env.try_wall_kick (call_random env 0 3 u).2.game
          (((call_random env 0 3 u).2.game.targetX + env.ANGLE_STEP_90) % 256)
          (call_random env 0 3 u).2.game.targetY (call_random env 0 3 u).2.game.targetZ
        = some ((try_rotation env u).2.game.shape_pos_x, (try_rotation env u).2.game.shape_pos_y,
                (try_rotation env u).2.game.shape_pos_z) ∧
      (try_rotation env u).2.game.targetX
        = ((call_random env 0 3 u).2.game.targetX + env.ANGLE_STEP_90) % 256 ∧
      (try_rotation env u).2.game.targetY = (call_random env 0 3 u).2.game.targetY ∧
      (try_rotation env u).2.game.targetZ = (call_random env 0 3 u).2.game.targetZ ∧
      (try_rotation env u).2.log = (call_random env 0 3 u).2.log ++
        [ExtCall.try_wall_kick
          (((call_random env 0 3 u).2.game.targetX + env.ANGLE_STEP_90) % 256)
          (call_random env 0 3 u).2.game.targetY (call_random env 0 3 u).2.game.targetZ,
         ExtCall.change_state GameState.STATE_ANIMATING]) ∧
    (u8 (call_random env 0 3 u).1 = 1 →
      env.try_wall_kick (call_random env 0 3 u).2.game
          (call_random env 0 3 u).2.game.targetX
          (((call_random env 0 3 u).2.game.targetY + env.ANGLE_STEP_90) % 256)
          (call_random env 0 3 u).2.game.targetZ
        = some ((try_rotation env u).2.game.shape_pos_x, (try_rotation env u).2.game.shape_pos_y,
                (try_rotation env u).2.game.shape_pos_z) ∧
      (try_rotation env u).2.game.targetX = (call_random env 0 3 u).2.game.targetX ∧
      (try_rotation env u).2.game.targetY
        = ((call_random env 0 3 u).2.game.targetY + env.ANGLE_STEP_90) % 256 ∧
      (try_rotation env u).2.game.targetZ = (call_random env 0 3 u).2.game.targetZ ∧
      (try_rotation env u).2.log = (call_random env 0 3 u).2.log ++
        [ExtCall.try_wall_kick (call_random env 0 3 u).2.game.targetX
          (((call_random env 0 3 u).2.game.targetY + env.ANGLE_STEP_90) % 256)
          (call_random env 0 3 u).2.game.targetZ,
         ExtCall.change_state GameState.STATE_ANIMATING]) ∧
    (u8 (call_random env 0 3 u).1 ≠ 0 → u8 (call_random env 0 3 u).1 ≠ 1 →
      env.try_wall_kick (call_random env 0 3 u).2.game
          (call_random env 0 3 u).2.game.targetX (call_random env 0 3 u).2.game.targetY
          (((call_random env 0 3 u).2.game.targetZ + env.ANGLE_STEP_90) % 256)
        = some ((try_rotation env u).2.game.shape_pos_x, (try_rotation env u).2.game.shape_pos_y,
                (try_rotation env u).2.game.shape_pos_z) ∧
      (try_rotation env u).2.game.targetX = (call_random env 0 3 u).2.game.targetX ∧
      (try_rotation env u).2.game.targetY = (call_random env 0 3 u).2.game.targetY ∧
      (try_rotation env u).2.game.targetZ
        = ((call_random env 0 3 u).2.game.targetZ + env.ANGLE_STEP_90) % 256 ∧
      (try_rotation env u).2.log = (call_random env 0 3 u).2.log ++
        [ExtCall.try_wall_kick (call_random env 0 3 u).2.game.targetX
          (call_random env 0 3 u).2.game.targetY
          (((call_random env 0 3 u).2.game.targetZ + env.ANGLE_STEP_90) % 256),
         ExtCall.change_state GameState.STATE_ANIMATING]) := by
  simp only [try_rotation, call_try_wall_kick, u8_angle] at h ⊢
  refine ⟨fun h0 => ?_, fun h1 => ?_, fun h0 h1 => ?_⟩
  · rw [if_pos h0] at h ⊢
    rcases hk : env.try_wall_kick (call_random env 0 3 u).2.game
        (((call_random env 0 3 u).2.game.targetX + env.ANGLE_STEP_90) % 256)
        (call_random env 0 3 u).2.game.targetY (call_random env 0 3 u).2.game.targetZ
      with _ | ⟨kX, kY, kZ⟩
    · simp [hk] at h
    · simp [hk, change_state, logCall]
  · have h0 : ¬ u8 (call_random env 0 3 u).1 = 0 := by omega
    rw [if_neg h0, if_pos h1] at h ⊢
    rcases hk : env.try_wall_kick (call_random env 0 3 u).2.game
        (call_random env 0 3 u).2.game.targetX
        (((call_random env 0 3 u).2.game.targetY + env.ANGLE_STEP_90) % 256)
        (call_random env 0 3 u).2.game.targetZ
      with _ | ⟨kX, kY, kZ⟩
    · simp [hk] at h
    · simp [hk, change_state, logCall]
  · rw [if_neg h0, if_neg h1] at h ⊢
    rcases hk : env.try_wall_kick (call_random env 0 3 u).2.game
        (call_random env 0 3 u).2.game.targetX (call_random env 0 3 u).2.game.targetY
        (((call_random env 0 3 u).2.game.targetZ + env.ANGLE_STEP_90) % 256)
      with _ | ⟨kX, kY, kZ⟩
    · simp [hk] at h
    · simp [hk, change_state, logCall]

/-- C17: when the rotation attempt of a call of the executor succeeds, the game
state becomes `ANIMATING` and the done flag is unchanged; on the chosen axis
(0 = X, 1 = Y, otherwise Z) the wall-kick resolver was queried with the target
angle of that axis advanced to `(old angle + ANGLE_STEP_90) mod 256` and the
other two target angles at their current values, the piece position is exactly
the position the resolver returned, the target angle of the chosen axis is the
advanced one and the other two are unchanged; the last two external calls are
that query and `change_state(STATE_ANIMATING)`. -/
theorem rotation_effect (env : Env) (s : State) (hrot : rotation_succeeded env s = true) :
    (demo_execute_movement_step env s).game.state_current = GameState.STATE_ANIMATING ∧
    (demo_execute_movement_step env s).demo.demo_movement_done = s.demo.demo_movement_done ∧
    (rotation_axis env s = 0 →
      env.try_wall_kick (rotation_entry env s).game
          ((s.game.targetX + env.ANGLE_STEP_90) % 256) s.game.targetY s.game.targetZ
        = some ((demo_execute_movement_step env s).game.shape_pos_x,
                (demo_execute_movement_step env s).game.shape_pos_y,
                (demo_execute_movement_step env s).game.shape_pos_z) ∧
      (demo_execute_movement_step env s).game.targetX
        = (s.game.targetX + env.ANGLE_STEP_90) % 256 ∧
      (demo_execute_movement_step env s).game.targetY = s.game.targetY ∧
      (demo_execute_movement_step env s).game.targetZ = s.game.targetZ ∧
      (demo_execute_movement_step env s).log = (rotation_entry env s).log ++
        [ExtCall.try_wall_kick ((s.game.targetX + env.ANGLE_STEP_90) % 256)
          s.game.targetY s.game.targetZ,
         ExtCall.change_state GameState.STATE_ANIMATING]) ∧
    (rotation_axis env s = 1 →
      env.try_wall_kick (rotation_entry env s).game
          s.game.targetX ((s.game.targetY + env.ANGLE_STEP_90) % 256) s.game.targetZ
        = some ((demo_execute_movement_step env s).game.shape_pos_x,
                (demo_execute_movement_step env s).game.shape_pos_y,
                (demo_execute_movement_step env s).game.shape_pos_z) ∧
      (demo_execute_movement_step env s).game.targetX = s.game.targetX ∧
      (demo_execute_movement_step env s).game.targetY
        = (s.game.targetY + env.ANGLE_STEP_90) % 256 ∧
      (demo_execute_movement_step env s).game.targetZ = s.game.targetZ ∧
      (demo_execute_movement_step env s).log = (rotation_entry env s).log ++
        [ExtCall.try_wall_kick s.game.targetX
          ((s.game.targetY + env.ANGLE_STEP_90) % 256) s.game.targetZ,
         ExtCall.change_state GameState.STATE_ANIMATING]) ∧
    (rotation_axis env s ≠ 0 → rotation_axis env s ≠ 1 →
      env.try_wall_kick (rotation_entry env s).game
          s.game.targetX s.game.targetY ((s.game.targetZ + env.ANGLE_STEP_90) % 256)
        = some ((demo_execute_movement_step env s).game.shape_pos_x,
                (demo_execute_movement_step env s).game.shape_pos_y,
                (demo_execute_movement_step env s).game.shape_pos_z) ∧
      (demo_execute_movement_step env s).game.targetX = s.game.targetX ∧
      (demo_execute_movement_step env s).game.targetY = s.game.targetY ∧
      (demo_execute_movement_step env s).game.targetZ
        = (s.game.targetZ + env.ANGLE_STEP_90) % 256 ∧
      (demo_execute_movement_step env s).log = (rotation_entry env s).log ++
        [ExtCall.try_wall_kick s.game.targetX s.game.targetY
          ((s.game.targetZ + env.ANGLE_STEP_90) % 256),
         ExtCall.change_state GameState.STATE_ANIMATING]) := by
  obtain ⟨hne, h1, h2⟩ := exec_of_rotation env s hrot
  obtain ⟨h3, _, _⟩ := try_rotation_success env _ h1
  obtain ⟨a0, a1, a2⟩ := try_rotation_axis env _ h1
  obtain ⟨tx, ty, tz⟩ := rotation_entry_targets env s
  obtain ⟨_, _, hd⟩ := exec_step_fields env s hne
  have he : (call_random env 0 3 (call_random env 0 2 (after_translation env s)).2).2
      = rotation_entry env s := rfl
  rw [he] at a0 a1 a2
  rw [tx, ty, tz] at a0 a1 a2
  refine ⟨by rw [h2]; exact h3, by rw [hd, if_pos hrot], ?_, ?_, ?_⟩
  · intro hax
    rw [h2]; exact a0 hax
  · intro hax
    rw [h2]; exact a1 hax
  · intro hax0 hax1
    rw [h2]; exact a2 hax0 hax1

/-- Witness for C17: an accepted X step followed by a successful rotation about
the Y axis (`random` returning 1, `ANGLE_STEP_90` = 64). -/
theorem rotation_effect_witness :
    rotation_axis (constEnv true true 1 0) (planState 1 0 false) = 1 ∧
    (demo_execute_movement_step (constEnv true true 1 0) (planState 1 0 false)).game.targetY
      = (0 + 64) % 256 ∧
    (demo_execute_movement_step (constEnv true true 1 0) (planState 1 0 false)).game.targetX
      = 0 :=
  have h := (rotation_effect (constEnv true true 1 0) (planState 1 0 false) (by decide)).2.2.2.1
    (by decide)
  ⟨by decide, h.2.2.1, h.2.1⟩

theorem transitions_logCall (c : ExtCall) (s : State) :
    transitions (logCall c s) = transitions s + (if is_transition c = true then 1 else 0) := by
  simp [transitions, logCall, List.countP_append, List.countP_cons]

theorem move_x_rejected (env : Env) (s : State)
    (h : 0 < s.demo.demo_steps_x →
      env.is_position_valid s.game (i8 (s.game.shape_pos_x + s.demo.demo_move_dir_x))
        s.game.shape_pos_y s.game.shape_pos_z = false) :
    (move_x env s).1 = false ∧ (move_x env s).2.game = s.game ∧
    transitions (move_x env s).2 = transitions s := by
  simp only [move_x, call_is_position_valid, logCall, transitions]
  split_ifs <;> simp_all [List.countP_append, List.countP_cons, is_transition]

theorem move_y_rejected (env : Env) (s : State)
    (h : 0 < s.demo.demo_steps_y →
      env.is_position_valid s.game s.game.shape_pos_x
        (i8 (s.game.shape_pos_y + s.demo.demo_move_dir_y)) s.game.shape_pos_z = false) :
    (move_y env false s).2.game = s.game ∧
    transitions (move_y env false s).2 = transitions s := by
  simp only [move_y, call_is_position_valid, logCall, transitions]
  split_ifs <;> simp_all [List.countP_append, List.countP_cons, is_transition]

/-- A rotation block whose wall kick fails changes only the hidden state. -/
theorem try_rotation_failed (env : Env) (u : State) (h : (try_rotation env u).1 = false) :
    (try_rotation env u).2.game = (call_random env 0 3 u).2.game ∧
    transitions (try_rotation env u).2 = transitions u := by
  simp only [try_rotation, call_try_wall_kick] at h ⊢
  split_ifs at h ⊢ <;> split at h <;>
    simp_all [change_state, logCall, transitions, call_random, List.countP_append,
      List.countP_cons, is_transition]

theorem check_movement_complete_game (s : State) :
    (check_movement_complete s).game = s.game ∧
    transitions (check_movement_complete s) = transitions s := by
  unfold check_movement_complete
  split_ifs <;> exact ⟨rfl, rfl⟩

/-- C18: in a call of the executor outside `ANIMATING` in which the validity
oracle rejects every candidate position (the X candidate is queried when
`stepsX` is positive, the Y candidate when `stepsY` is positive) and no rotation
succeeds, the piece position, the three target angles and the game state are
unchanged and no state transition is requested, while each step counter is
reduced by exactly one if it was positive and stays 0 if it was 0. -/
theorem rejected_call_effect (env : Env) (s : State)
    (hstate : s.game.state_current ≠ GameState.STATE_ANIMATING)
    (hrx : 0 < s.demo.demo_steps_x →
      env.is_position_valid s.game (i8 (s.game.shape_pos_x + s.demo.demo_move_dir_x))
        s.game.shape_pos_y s.game.shape_pos_z = false)
    (hry : 0 < s.demo.demo_steps_y →
      env.is_position_valid s.game s.game.shape_pos_x
        (i8 (s.game.shape_pos_y + s.demo.demo_move_dir_y)) s.game.shape_pos_z = false)
    (hrot : rotation_succeeded env s = false)
    (hx : s.demo.demo_steps_x < 256) (hy : s.demo.demo_steps_y < 256) :
    (demo_execute_movement_step env s).game.shape_pos_x = s.game.shape_pos_x ∧
    (demo_execute_movement_step env s).game.shape_pos_y = s.game.shape_pos_y ∧
    (demo_execute_movement_step env s).game.shape_pos_z = s.game.shape_pos_z ∧
    (demo_execute_movement_step env s).game.targetX = s.game.targetX ∧
    (demo_execute_movement_step env s).game.targetY = s.game.targetY ∧
    (demo_execute_movement_step env s).game.targetZ = s.game.targetZ ∧
    (demo_execute_movement_step env s).game.state_current = s.game.state_current ∧
    transitions (demo_execute_movement_step env s) = transitions s ∧
    (demo_execute_movement_step env s).demo.demo_steps_x = s.demo.demo_steps_x - 1 ∧
    (demo_execute_movement_step env s).demo.demo_steps_y = s.demo.demo_steps_y - 1 := by
  obtain ⟨m1, m2, m3⟩ := move_x_rejected env s hrx
  have hdir : (move_x env s).2.demo.demo_move_dir_y = s.demo.demo_move_dir_y := by
    rw [move_x_demo]
  have hsy : (move_x env s).2.demo.demo_steps_y = s.demo.demo_steps_y := by
    rw [move_x_demo]
  have hry2 : 0 < (move_x env s).2.demo.demo_steps_y →
      env.is_position_valid (move_x env s).2.game (move_x env s).2.game.shape_pos_x
        (i8 ((move_x env s).2.game.shape_pos_y + (move_x env s).2.demo.demo_move_dir_y))
        (move_x env s).2.game.shape_pos_z = false := by
    rw [hdir, hsy, m2]; exact hry
  obtain ⟨y2, y3⟩ := move_y_rejected env (move_x env s).2 hry2
  have hgame : (move_y env (move_x env s).1 (move_x env s).2).2.game = s.game := by
    rw [m1, y2, m2]
  have htrans : transitions (move_y env (move_x env s).1 (move_x env s).2).2 = transitions s := by
    rw [m1, y3, m3]
  obtain ⟨c1, c2, _⟩ := exec_step_fields env s hstate
  have hcount : (demo_execute_movement_step env s).demo.demo_steps_x = s.demo.demo_steps_x - 1 ∧
      (demo_execute_movement_step env s).demo.demo_steps_y = s.demo.demo_steps_y - 1 := by
    rw [c1, c2, m1]
    constructor
    · split_ifs with h0
      · exact u8_pred_eq _ h0 hx
      · omega
    · by_cases h0 : 0 < s.demo.demo_steps_y
      · simp [h0, u8_pred_eq _ h0 hy]
      · have : s.demo.demo_steps_y = 0 := by omega
        simp [this]
  have hfinal : (demo_execute_movement_step env s).game.shape_pos_x = s.game.shape_pos_x ∧
      (demo_execute_movement_step env s).game.shape_pos_y = s.game.shape_pos_y ∧
      (demo_execute_movement_step env s).game.shape_pos_z = s.game.shape_pos_z ∧
      (demo_execute_movement_step env s).game.targetX = s.game.targetX ∧
      (demo_execute_movement_step env s).game.targetY = s.game.targetY ∧
      (demo_execute_movement_step env s).game.targetZ = s.game.targetZ ∧
      (demo_execute_movement_step env s).game.state_current = s.game.state_current ∧
      transitions (demo_execute_movement_step env s) = transitions s := by
    simp only [rotation_succeeded, if_neg hstate] at hrot
    simp only [demo_execute_movement_step, if_neg hstate]
    by_cases hcoin : (call_random env 0 2 (move_y env (move_x env s).1 (move_x env s).2).2).1 ≠ 0
    · have hr : (try_rotation env
          (call_random env 0 2 (move_y env (move_x env s).1 (move_x env s).2).2).2).1 = false := by
        simpa [hcoin] using hrot
      obtain ⟨r1, r2⟩ := try_rotation_failed env _ hr
      obtain ⟨k1, k2⟩ := check_movement_complete_game (try_rotation env
          (call_random env 0 2 (move_y env (move_x env s).1 (move_x env s).2).2).2).2
      simp only [hcoin, hr, if_true, ne_eq, not_false_eq_true, Bool.false_eq_true, if_false]
      rw [k1, k2, r1, r2]
      simp only [call_random, logCall, hgame, transitions, List.countP_append, List.countP_cons,
        is_transition] at htrans ⊢
      simp [htrans, transitions]
    · obtain ⟨k1, k2⟩ := check_movement_complete_game
          (call_random env 0 2 (move_y env (move_x env s).1 (move_x env s).2).2).2
      simp only [hcoin, if_false]
      rw [k1, k2]
      simp only [call_random, logCall, hgame, transitions, List.countP_append, List.countP_cons,
        is_transition] at htrans ⊢
      simp [htrans, transitions]
  obtain ⟨g1, g2, g3, g4, g5, g6, g7, g8⟩ := hfinal
  exact ⟨g1, g2, g3, g4, g5, g6, g7, g8, hcount.1, hcount.2⟩

/-- Witness for C18: the plan (0, 1) in front of a back wall.  Only the Y
candidate is queried and it is rejected; the X neighbour is free but, `stepsX`
being 0, is never a candidate.  The Y counter goes from 1 to 0 and nothing else
moves. -/
theorem rejected_call_effect_witness :
    backWallEnv.is_position_valid (planState 0 1 false).game 1 0 0 = true ∧
    (demo_execute_movement_step backWallEnv (planState 0 1 false)).game.shape_pos_y = 0 ∧
    (demo_execute_movement_step backWallEnv (planState 0 1 false)).demo.demo_steps_x = 0 - 1 ∧
    (demo_execute_movement_step backWallEnv (planState 0 1 false)).demo.demo_steps_y = 1 - 1 ∧
    (demo_execute_movement_step backWallEnv (planState 0 1 false)).log =
      [ExtCall.is_position_valid 0 1 0, ExtCall.random 0 2] :=
  have h := rejected_call_effect backWallEnv (planState 0 1 false)
    (by decide) (by decide) (by decide) (by decide) (by decide) (by decide)
  ⟨by decide, h.2.1, h.2.2.2.2.2.2.2.2.1, h.2.2.2.2.2.2.2.2.2, by decide⟩

/-! ## State transitions per tick -/

theorem quiet_refl (s : State) : Quiet s s := ⟨Eq.refl _, Eq.refl _, Eq.refl _⟩

theorem quiet_trans {s t u : State} (h1 : Quiet s t) (h2 : Quiet t u) : Quiet s u :=
  ⟨h2.1.trans h1.1, h2.2.1.trans h1.2.1, h2.2.2.trans h1.2.2⟩

/-- A step that leaves the call log alone is quiet. -/
theorem quiet_of_log {s t : State} (h : t.log = s.log) : Quiet s t := by
  simp [Quiet, transitions, requests, h]

theorem quiet_then_rotated {s t u : State} (h1 : Quiet s t) (h2 : Rotated t u) : Rotated s u := by
  obtain ⟨a, b, c⟩ := h1
  obtain ⟨d, e, f⟩ := h2
  exact ⟨by omega, by omega, by omega⟩

theorem quiet_then_dropped {s t u : State} (h1 : Quiet s t) (h2 : Dropped t u) : Dropped s u := by
  obtain ⟨a, b, c⟩ := h1
  obtain ⟨d, e, f⟩ := h2
  exact ⟨by omega, by omega, by omega⟩

theorem rotated_then_quiet {s t u : State} (h1 : Rotated s t) (h2 : Quiet t u) : Rotated s u := by
  obtain ⟨a, b, c⟩ := h1
  obtain ⟨d, e, f⟩ := h2
  exact ⟨by omega, by omega, by omega⟩

theorem quiet_call_random (env : Env) (lo hi : Int) (s : State) :
    Quiet s (call_random env lo hi s).2 := by
  simp [Quiet, transitions, requests, call_random, logCall, List.countP_append,
    List.countP_cons, List.count_append, is_transition]

theorem quiet_move_x (env : Env) (s : State) : Quiet s (move_x env s).2 := by
  simp only [move_x, call_is_position_valid, logCall, Quiet, transitions, requests]
  split_ifs <;>
    simp [List.countP_append, List.countP_cons, List.count_append, is_transition]

theorem quiet_move_y (env : Env) (m : Bool) (s : State) : Quiet s (move_y env m s).2 := by
  simp only [move_y, call_is_position_valid, logCall, Quiet, transitions, requests]
  cases m <;> split_ifs <;>
    simp_all [List.countP_append, List.countP_cons, List.count_append, is_transition]

theorem quiet_check_movement_complete (s : State) : Quiet s (check_movement_complete s) := by
  apply quiet_of_log
  unfold check_movement_complete
  split_ifs <;> rfl

theorem try_rotation_outcome (env : Env) (u : State) :
    ((try_rotation env u).1 = false → Quiet u (try_rotation env u).2) ∧
    ((try_rotation env u).1 = true → Rotated u (try_rotation env u).2) := by
  simp only [try_rotation, call_try_wall_kick, Quiet, Rotated, transitions, requests]
  split_ifs <;> split <;>
    simp [change_state, logCall, call_random, List.countP_append, List.countP_cons,
      List.count_append, is_transition]

/-- A call of the executor requests no transition, or its rotation succeeds and
it requests `ANIMATING` once and leaves the done flag as it was. -/
theorem exec_outcome (env : Env) (s : State) :
    Quiet s (demo_execute_movement_step env s) ∨
    (Rotated s (demo_execute_movement_step env s) ∧
      (demo_execute_movement_step env s).demo.demo_movement_done = s.demo.demo_movement_done) := by
  by_cases hrot : rotation_succeeded env s = true
  · right
    obtain ⟨hne, h1, h2⟩ := exec_of_rotation env s hrot
    obtain ⟨_, _, hd⟩ := exec_step_fields env s hne
    refine ⟨?_, by rw [hd, if_pos hrot]⟩
    rw [h2]
    refine quiet_then_rotated ?_ ((try_rotation_outcome env _).2 h1)
    exact quiet_trans (quiet_trans (quiet_move_x env s) (quiet_move_y env _ _))
      (quiet_call_random env 0 2 _)
  · left
    by_cases hst : s.game.state_current = GameState.STATE_ANIMATING
    · simp only [demo_execute_movement_step, if_pos hst]
      exact quiet_refl s
    · have hq := quiet_trans (quiet_trans (quiet_move_x env s)
        (quiet_move_y env (move_x env s).1 (move_x env s).2))
        (quiet_call_random env 0 2 (move_y env (move_x env s).1 (move_x env s).2).2)
      simp only [rotation_succeeded, if_neg hst] at hrot
      simp only [demo_execute_movement_step, if_neg hst]
      by_cases hcoin : (call_random env 0 2 (move_y env (move_x env s).1 (move_x env s).2).2).1 ≠ 0
      · have hr : (try_rotation env
            (call_random env 0 2 (move_y env (move_x env s).1 (move_x env s).2).2).2).1 = false := by
          simpa [hcoin] using hrot
        simp only [hcoin, hr, if_true, ne_eq, not_false_eq_true, Bool.false_eq_true, if_false]
        exact quiet_trans (quiet_trans hq ((try_rotation_outcome env _).1 hr))
          (quiet_check_movement_complete _)
      · simp only [hcoin, if_false]
        exact quiet_trans hq (quiet_check_movement_complete _)

theorem quiet_reset_cycle (env : Env) (s : State) : Quiet s (demo_reset_cycle env s) := by
  simp [Quiet, transitions, requests, demo_reset_cycle_log, List.countP_append,
    List.countP_cons, List.count_append, is_transition]

theorem quiet_plan (env : Env) (s : State) : Quiet s (demo_plan_random_movement env s) := by
  simp [Quiet, transitions, requests, demo_plan_random_movement_log, List.countP_append,
    List.countP_cons, List.count_append, is_transition]

theorem quiet_on_new_shape (env : Env) (s : State) : Quiet s (demo_on_new_shape env s) := by
  unfold demo_on_new_shape
  split_ifs
  · exact quiet_trans (quiet_of_log rfl) (quiet_plan env _)
  · exact quiet_reset_cycle env s
  · exact quiet_plan env s

theorem quiet_dispatch (env : Env) (s : State) : Quiet s (demo_tick_dispatch env s) := by
  unfold demo_tick_dispatch
  split_ifs
  · exact quiet_trans (quiet_of_log rfl) (quiet_on_new_shape env _)
  · exact quiet_refl s

theorem quiet_should_reset (env : Env) (s : State) : Quiet s (demo_should_reset env s).2 := by
  simp [Quiet, transitions, requests, demo_should_reset, call_count_occupied_levels, logCall,
    List.countP_append, List.countP_cons, List.count_append, is_transition]

theorem dropped_force_fast_drop (s : State) : Dropped s (force_fast_drop s) := by
  simp [Dropped, transitions, requests, force_fast_drop, change_state, logCall,
    List.countP_append, List.countP_cons, List.count_append, is_transition]

/-- The movement step of a tick requests no transition, or the executor was
invoked with the plan not done, its rotation succeeded and the plan is still
not done. -/
theorem tick_move_outcome (env : Env) (s : State) :
    Quiet s (demo_tick_move env s) ∨
    (Rotated s (demo_tick_move env s) ∧
      (demo_tick_move env s).demo.demo_movement_done = false) := by
  have hr := quiet_call_random env 8 50 s
  simp only [demo_tick_move]
  split_ifs with h1 h2
  · rcases exec_outcome env (call_random env 8 50 s).2 with h | ⟨h, hd⟩
    · exact Or.inl (quiet_trans hr h)
    · refine Or.inr ⟨quiet_then_rotated hr h, ?_⟩
      rw [hd]
      simpa using h2
  · exact Or.inl hr
  · exact Or.inl hr

/-- The three outcomes of the part of a tick behind the state gate. -/
theorem tick_playing_outcome (env : Env) (s : State) :
    Quiet s (demo_tick_playing env s) ∨
    (Rotated s (demo_tick_playing env s) ∧
      (demo_tick_playing env s).demo.demo_movement_done = false) ∨
    Dropped s (demo_tick_playing env s) := by
  have ht : Quiet s (demo_tick_timer s) := quiet_of_log rfl
  simp only [demo_tick_playing]
  split_ifs with h1 h2 h3
  · exact Or.inr (Or.inr (quiet_then_dropped ht (dropped_force_fast_drop _)))
  · exact Or.inl ht
  · rcases tick_move_outcome env (demo_tick_timer s) with h | ⟨_, hd⟩
    · exact Or.inr (Or.inr (quiet_then_dropped (quiet_trans ht h) (dropped_force_fast_drop _)))
    · rw [hd] at h3
      simp at h3
  · rcases tick_move_outcome env (demo_tick_timer s) with h | ⟨h, hd⟩
    · exact Or.inl (quiet_trans ht h)
    · exact Or.inr (Or.inl ⟨quiet_then_rotated ht h, hd⟩)

/-- The three outcomes of a tick. -/
theorem tick_outcome (env : Env) (s : State) :
    Quiet s (demo_tick env s) ∨
    (Rotated s (demo_tick env s) ∧ (demo_tick env s).demo.demo_movement_done = false) ∨
    Dropped s (demo_tick env s) := by
  have hq := quiet_should_reset env s
  unfold demo_tick
  simp only []
  split_ifs
  · exact Or.inl (quiet_refl s)
  · exact Or.inl (quiet_trans hq (quiet_reset_cycle env _))
  · exact Or.inl (quiet_trans hq (quiet_dispatch env _))
  · have hq2 := quiet_trans hq (quiet_dispatch env (demo_should_reset env s).2)
    rcases tick_playing_outcome env (demo_tick_dispatch env (demo_should_reset env s).2)
      with h | ⟨h, hd⟩ | h
    · exact Or.inl (quiet_trans hq2 h)
    · exact Or.inr (Or.inl ⟨quiet_then_rotated hq2 h, hd⟩)
    · exact Or.inr (Or.inr (quiet_then_dropped hq2 h))

/-- C19: a tick requests at most one state transition.  When it requests
`ANIMATING` (which only a successful rotation of the movement executor does),
that is its only request, the plan's done flag is false afterwards and no
`FAST_DROP` is forced in the same tick; when it forces `FAST_DROP`, it requests
no `ANIMATING`. -/
theorem one_transition_per_tick (env : Env) (s : State) :
    transitions (demo_tick env s) ≤ transitions s + 1 ∧
    (requests GameState.STATE_ANIMATING s < requests GameState.STATE_ANIMATING (demo_tick env s) →
      transitions (demo_tick env s) = transitions s + 1 ∧
      requests GameState.STATE_ANIMATING (demo_tick env s)
        = requests GameState.STATE_ANIMATING s + 1 ∧
      (demo_tick env s).demo.demo_movement_done = false ∧
      requests GameState.STATE_FAST_DROP (demo_tick env s)
        = requests GameState.STATE_FAST_DROP s) ∧
    (requests GameState.STATE_FAST_DROP s < requests GameState.STATE_FAST_DROP (demo_tick env s) →
      transitions (demo_tick env s) = transitions s + 1 ∧
      requests GameState.STATE_ANIMATING (demo_tick env s)
        = requests GameState.STATE_ANIMATING s) := by
  rcases tick_outcome env s with ⟨a, b, c⟩ | ⟨⟨a, b, c⟩, hd⟩ | ⟨a, b, c⟩
  · exact ⟨by omega, fun h => by omega, fun h => by omega⟩
  · exact ⟨by omega, fun _ => ⟨a, b, hd, c⟩, fun h => by omega⟩
  · exact ⟨by omega, fun h => by omega, fun _ => ⟨a, b⟩⟩

/-- Witness for C19: a tick whose movement step rotates the piece although the
timer is past the forced-drop delay; the only request is `ANIMATING`. -/
theorem one_transition_per_tick_witness :
    (demo_tick (constEnv true true 1 0) (latePlanState 1 0)).game.state_current
      = GameState.STATE_ANIMATING ∧
    (demo_tick (constEnv true true 1 0) (latePlanState 1 0)).demo.demo_movement_done = false ∧
    requests GameState.STATE_FAST_DROP (demo_tick (constEnv true true 1 0) (latePlanState 1 0))
      = requests GameState.STATE_FAST_DROP (latePlanState 1 0) :=
  have h := (one_transition_per_tick (constEnv true true 1 0) (latePlanState 1 0)).2.1
    (by decide)
  ⟨by decide, h.2.2.1, h.2.2.2⟩

end Blockout
